import Mathlib

/-!
Verification development for the plant-tracker request façade
(`src/server/main.py` and `src/server/prompts.py`).

The Python source is shallowly embedded: the mutable module-level state
(`_analysis_cache` and the implicit count of remote invocations) is threaded
explicitly as a `ServerState`; Python exceptions become `Except PyErr`;
wall-clock timestamps become `Nat` parameters supplied at each call; the
external collaborators (base64 codec, SHA-256, `json.loads`, the Gemini
client, Python's `str`) are fields of an `Env` record, quantified over in the
theorems.  `time.sleep` calls and invocation counts of the retried closure are
recorded as observable outputs of the retry loop.
-/

/-- Byte strings (`bytes` values) as lists of byte values. -/
abbrev Bytes := List Nat

/-- A minimal model of Python JSON values (`dict`/`list`/`str`/numbers/bools/
`None`) as produced by `json.loads` and stored in the analysis cache.
Numbers are modelled as integers; no claim depends on float payloads. -/
inductive Json where
  | null
  | bool (b : Bool)
  | num (n : Int)
  | str (s : String)
  | arr (elems : List Json)
  | obj (fields : List (String × Json))

/-- Python truthiness (`if x:`) of a JSON value: `None`, `False`, `0`, `""`,
`[]` and `` \x7b\x7d `` are falsy, everything else truthy. -/
def jsonTruthy : Json → Bool
  | Json.null => false
  | Json.bool b => b
  | Json.num n => n != 0
  | Json.str s => s != ""
  | Json.arr l => !l.isEmpty
  | Json.obj l => !l.isEmpty

/-- Python `d.get(k)` on a JSON object (`none` on a missing key or a non-object). -/
def jsonGet (j : Json) (k : String) : Option Json :=
  match j with
  | Json.obj fields => (fields.find? (fun f => f.1 == k)).map (fun f => f.2)
  | _ => none

/-!
 ## ExpiringLRUCache (`LRUCache` in `main.py`, lines 24-49)

`OrderedDict` is modelled as a list of `(key, value, timestamp)` entries with
the least-recently-used entry at the head and the most-recently-used at the
tail, matching `OrderedDict` iteration order.  `time.time()` is the explicit
`now : Nat` argument.  The mutating Python methods return the updated cache.
-/

/-- State of `LRUCache.__init__`: entries plus `_max_size` and `_ttl_seconds`. -/
structure LRUCache (V : Type) where
  entries : List (String × V × Nat)
  maxSize : Nat
  ttlSeconds : Nat

/-- A fresh cache, as built by `LRUCache(max_size=..., ttl_seconds=...)`. -/
def LRUCache.empty {V : Type} (maxSize ttlSeconds : Nat) : LRUCache V :=
  { entries := [], maxSize := maxSize, ttlSeconds := ttlSeconds }

/-- The `while len(self._cache) > self._max_size: self._cache.popitem(last=False)`
loop at the end of `LRUCache.set`: repeatedly drop the head (oldest entry)
while over capacity.  Returns the surviving list together with the evicted
entries, in eviction order. -/
def evictLoop {α : Type} : List α → Nat → List α × List α
  | [], _ => ([], [])
  | e :: t, m =>
    if (e :: t).length ≤ m then (e :: t, [])
    else
      let out := evictLoop t m
      (out.1, e :: out.2)

/-- Embeds `LRUCache.get` (`main.py` lines 32-41).  Returns the looked-up value and
the updated cache: a missing key leaves the cache untouched; an entry older
than `ttl_seconds` is deleted (`del self._cache[key]`) and `None` returned; a
live hit is moved to the most-recently-used position (`move_to_end`). -/
def LRUCache.get {V : Type} (c : LRUCache V) (now : Nat) (key : String) :
    Option V × LRUCache V :=
  match c.entries.find? (fun e => e.1 == key) with
  | none => (none, c)
  | some e =>
    if now - e.2.2 > c.ttlSeconds then
      (none, { c with entries := c.entries.filter (fun x => x.1 != key) })
    else
      (some e.2.1,
        { c with entries := c.entries.filter (fun x => x.1 != key) ++ [(key, e.2.1, e.2.2)] })

/-- Embeds `LRUCache.set` (`main.py` lines 43-49), additionally reporting the entries
evicted by the overflow loop.  `move_to_end` followed by the assignment
`self._cache[key] = (value, time.time())` nets out to: remove any existing
entry for `key`, append `(key, value, now)` at the tail, then evict from the
head while over capacity. -/
def LRUCache.setPair {V : Type} (c : LRUCache V) (now : Nat) (key : String) (value : V) :
    LRUCache V × List (String × V × Nat) :=
  let base := c.entries.filter (fun x => x.1 != key) ++ [(key, value, now)]
  let out := evictLoop base c.maxSize
  ({ c with entries := out.1 }, out.2)

/-- Embeds `LRUCache.set` proper (the Python method returns `None`; the cache is the
observable effect). -/
def LRUCache.set {V : Type} (c : LRUCache V) (now : Nat) (key : String) (value : V) :
    LRUCache V :=
  (c.setPair now key value).1

/-- The keys currently stored, in recency order (oldest first). -/
def LRUCache.keys {V : Type} (c : LRUCache V) : List String :=
  c.entries.map Prod.fst

/-- A single cache operation, for stating trace invariants. -/
inductive CacheOp (V : Type) where
  | get (now : Nat) (key : String)
  | set (now : Nat) (key : String) (value : V)

/-- Apply one operation, keeping only the resulting cache. -/
def applyOp {V : Type} (c : LRUCache V) : CacheOp V → LRUCache V
  | CacheOp.get now k => (c.get now k).2
  | CacheOp.set now k v => c.set now k v

/-- Run a sequence of cache operations. -/
def runOps {V : Type} (c : LRUCache V) (ops : List (CacheOp V)) : LRUCache V :=
  ops.foldl applyOp c

-- Basic characterisation of the eviction loop.

theorem evictLoop_eq {α : Type} (l : List α) (m : Nat) :
    evictLoop l m = (l.drop (l.length - m), l.take (l.length - m)) := by
  induction l with
  | nil => simp [evictLoop]
  | cons e t ih =>
    by_cases h : t.length + 1 ≤ m
    · have h0 : t.length + 1 - m = 0 := Nat.sub_eq_zero_of_le h
      simp [evictLoop, h, h0]
    · have hlen : t.length + 1 - m = (t.length - m) + 1 := by omega
      simp [evictLoop, h, ih, hlen]

theorem evictLoop_length_le {α : Type} (l : List α) (m : Nat) :
    (evictLoop l m).1.length ≤ m := by
  rw [evictLoop_eq]
  simp only [List.length_drop]
  omega

theorem set_length_le {V : Type} (c : LRUCache V) (now : Nat) (k : String) (v : V) :
    (c.set now k v).entries.length ≤ c.maxSize := by
  simp only [LRUCache.set, LRUCache.setPair]
  exact evictLoop_length_le _ _

theorem get_length_le {V : Type} (c : LRUCache V) (now : Nat) (k : String) :
    ((c.get now k).2).entries.length ≤ c.entries.length := by
  simp only [LRUCache.get]
  cases hf : c.entries.find? (fun e => e.1 == k) with
  | none => simp
  | some e =>
    by_cases h : now - e.2.2 > c.ttlSeconds
    · simpa [h] using Nat.le_trans (List.length_filter_le _ _) (Nat.le_refl _)
    · simp only [h, if_false]
      simp only [List.length_append, List.length_cons, List.length_nil]
      have hmem : e ∈ c.entries := List.mem_of_find?_eq_some hf
      have hk := List.find?_some hf
      have : (c.entries.filter (fun x => x.1 != k)).length < c.entries.length := by
        apply List.length_filter_lt_length_iff_exists.mpr
        exact ⟨e, hmem, by simp_all⟩
      omega

-- Lookup characterisation under distinct keys (the `OrderedDict` invariant).

theorem find?_key_eq_none {V : Type} (l : List (String × V × Nat)) (k : String)
    (h : k ∉ l.map Prod.fst) : l.find? (fun e => e.1 == k) = none := by
  apply List.find?_eq_none.mpr
  intro x hx
  simp only [beq_iff_eq]
  intro hxk
  exact h (by simpa [hxk] using List.mem_map_of_mem Prod.fst hx)

theorem find?_key_of_nodup {V : Type} (l : List (String × V × Nat)) (k : String) (v : V)
    (ts : Nat) (hnd : (l.map Prod.fst).Nodup) (hmem : (k, v, ts) ∈ l) :
    l.find? (fun e => e.1 == k) = some (k, v, ts) := by
  induction l with
  | nil => cases hmem
  | cons e t ih =>
    simp only [List.map_cons, List.nodup_cons] at hnd
    rcases List.mem_cons.mp hmem with he | ht
    · subst he
      simp [List.find?]
    · by_cases hek : e.1 = k
      · exfalso
        apply hnd.1
        rw [hek]
        simpa using List.mem_map_of_mem Prod.fst ht
      · have hbeq : (e.1 == k) = false := by simpa using hek
        simp only [List.find?, hbeq]
        exact ih hnd.2 ht

theorem filter_ne_of_not_mem_keys {V : Type} (l : List (String × V × Nat)) (k : String)
    (h : k ∉ l.map Prod.fst) : l.filter (fun x => x.1 != k) = l := by
  apply List.filter_eq_self.mpr
  intro x hx
  simp only [bne_iff_ne, ne_eq, decide_eq_true_eq]
  intro hxk
  exact h (by simpa [hxk] using List.mem_map_of_mem Prod.fst hx)

theorem not_mem_keys_filter {V : Type} (l : List (String × V × Nat)) (k : String) :
    k ∉ (l.filter (fun x => x.1 != k)).map Prod.fst := by
  intro h
  rcases List.mem_map.mp h with ⟨x, hx, hxk⟩
  rcases List.mem_filter.mp hx with ⟨_, hne⟩
  simp only [bne_iff_ne, ne_eq, decide_eq_true_eq] at hne
  exact hne hxk

theorem nodup_keys_filter {V : Type} (l : List (String × V × Nat)) (p : String × V × Nat → Bool)
    (hnd : (l.map Prod.fst).Nodup) : ((l.filter p).map Prod.fst).Nodup :=
  ((List.filter_sublist l).map Prod.fst).nodup hnd

-- `get` behaviour: miss, fresh hit (promotion), stale hit (lazy expiry).

theorem get_miss {V : Type} (c : LRUCache V) (now : Nat) (k : String)
    (h : k ∉ c.keys) : c.get now k = (none, c) := by
  simp [LRUCache.get, find?_key_eq_none c.entries k h]

theorem get_hit_fresh {V : Type} (c : LRUCache V) (now : Nat) (k : String) (v : V) (ts : Nat)
    (hnd : (c.entries.map Prod.fst).Nodup) (hmem : (k, v, ts) ∈ c.entries)
    (hfresh : now ≤ ts + c.ttlSeconds) :
    c.get now k =
      (some v, { c with entries := c.entries.filter (fun x => x.1 != k) ++ [(k, v, ts)] }) := by
  have hfind := find?_key_of_nodup c.entries k v ts hnd hmem
  have hstale : ¬ (now - ts > c.ttlSeconds) := by omega
  simp [LRUCache.get, hfind, hstale]

theorem get_hit_stale {V : Type} (c : LRUCache V) (now : Nat) (k : String) (v : V) (ts : Nat)
    (hnd : (c.entries.map Prod.fst).Nodup) (hmem : (k, v, ts) ∈ c.entries)
    (hstale : ts + c.ttlSeconds < now) :
    c.get now k = (none, { c with entries := c.entries.filter (fun x => x.1 != k) }) := by
  have hfind := find?_key_of_nodup c.entries k v ts hnd hmem
  have h : now - ts > c.ttlSeconds := by omega
  simp [LRUCache.get, hfind, h]

-- Distinct keys are preserved by every operation.

theorem nodup_keys_get {V : Type} (c : LRUCache V) (now : Nat) (k : String)
    (hnd : (c.entries.map Prod.fst).Nodup) :
    (((c.get now k).2).entries.map Prod.fst).Nodup := by
  simp only [LRUCache.get]
  cases hf : c.entries.find? (fun e => e.1 == k) with
  | none => simpa using hnd
  | some e =>
    by_cases h : now - e.2.2 > c.ttlSeconds
    · simpa [h] using nodup_keys_filter c.entries _ hnd
    · simp only [h, if_false]
      simp only [List.map_append, List.map_cons, List.map_nil]
      apply List.Nodup.append (nodup_keys_filter c.entries _ hnd) (List.nodup_singleton k)
      intro a ha hb
      simp only [List.mem_singleton] at hb
      rw [hb] at ha
      exact not_mem_keys_filter c.entries k ha

theorem nodup_keys_set {V : Type} (c : LRUCache V) (now : Nat) (k : String) (v : V)
    (hnd : (c.entries.map Prod.fst).Nodup) :
    ((c.set now k v).entries.map Prod.fst).Nodup := by
  simp only [LRUCache.set, LRUCache.setPair, evictLoop_eq]
  have hbase : (((c.entries.filter (fun x => x.1 != k)) ++ [(k, v, now)]).map Prod.fst).Nodup := by
    simp only [List.map_append, List.map_cons, List.map_nil]
    apply List.Nodup.append (nodup_keys_filter c.entries _ hnd) (List.nodup_singleton k)
    intro a ha hb
    simp only [List.mem_singleton] at hb
    rw [hb] at ha
    exact not_mem_keys_filter c.entries k ha
  exact ((List.drop_sublist _ _).map Prod.fst).nodup hbase

theorem set_entries_eq {V : Type} (c : LRUCache V) (now : Nat) (k : String) (v : V) :
    (c.set now k v).entries =
      (c.entries.filter (fun x => x.1 != k) ++ [(k, v, now)]).drop
        ((c.entries.filter (fun x => x.1 != k)).length + 1 - c.maxSize) := by
  simp [LRUCache.set, LRUCache.setPair, evictLoop_eq]

theorem set_fresh_entries_eq {V : Type} (c : LRUCache V) (now : Nat) (k : String) (v : V)
    (hk : k ∉ c.keys) (hm : 0 < c.maxSize) :
    (c.set now k v).entries =
      c.entries.drop (c.entries.length + 1 - c.maxSize) ++ [(k, v, now)] := by
  rw [set_entries_eq, filter_ne_of_not_mem_keys c.entries k hk]
  rw [List.drop_append_of_le_length (by omega)]

/-!
 ## RetryExecutor (`_call_with_retry`, `main.py` lines 80-90)

The `for attempt in range(max_retries + 1)` loop is modelled by structural
recursion on the remaining budget.  The fallible zero-argument `func` is
modelled as an oracle indexed by the attempt number and threaded through an
explicit state `σ` (covering the closures over the mutable module state that
`handle` passes in).  Besides the result and final state, the model records
the number of invocations of `func` and the list of `time.sleep` delays, in
order.  The float delay `0.8` and its exact doublings are modelled in `ℚ`
(doubling a binary float is exact, so `ℚ` is faithful here). -/
def retryLoop {σ ε α : Type} (f : Nat → σ → Except ε α × σ) :
    Nat → Nat → ℚ → σ → Except ε α × σ × Nat × List ℚ
  | 0, attempt, _, st =>
    match f attempt st with
    | (Except.ok a, st2) => (Except.ok a, st2, 1, [])
    | (Except.error e, st2) => (Except.error e, st2, 1, [])
  | r + 1, attempt, delay, st =>
    match f attempt st with
    | (Except.ok a, st2) => (Except.ok a, st2, 1, [])
    | (Except.error _, st2) =>
      let out := retryLoop f r (attempt + 1) (2 * delay) st2
      (out.1, out.2.1, out.2.2.1 + 1, delay :: out.2.2.2)

/-- Embeds `_call_with_retry(func, max_retries)` for a stateless `func` (pure oracle
by attempt index): result, number of invocations, sleep delays.  `delay`
starts at `0.8` as in the source. -/
def call_with_retry {ε α : Type} (func : Nat → Except ε α) (maxRetries : Nat) :
    Except ε α × Nat × List ℚ :=
  let out := retryLoop (fun i _ => (func i, ())) maxRetries 0 (0.8 : ℚ) ()
  (out.1, out.2.2.1, out.2.2.2)

-- The doubling-delay schedule, re-indexed by one step.

theorem delay_schedule_cons (d : ℚ) (r : Nat) :
    (List.range (r + 1)).map (fun i => d * 2 ^ i) =
      d :: (List.range r).map (fun i => (2 * d) * 2 ^ i) := by
  rw [List.range_succ_eq_map, List.map_cons, List.map_map]
  refine congrArg₂ _ (by ring) (List.map_congr_left ?_)
  intro a _
  simp only [Function.comp_apply, pow_succ]
  ring

/-- If every attempt fails, the loop runs the full budget: the error of the
last attempt is propagated, the state is stepped once per attempt, there is
one invocation per attempt and one sleep between consecutive attempts. -/
theorem retryLoop_all_fail {σ ε α : Type} (f : Nat → σ → Except ε α × σ)
    (e : Nat → σ → ε) (step : σ → σ)
    (h : ∀ i s, f i s = (Except.error (e i s), step s)) :
    ∀ (remaining attempt : Nat) (delay : ℚ) (st : σ),
      retryLoop f remaining attempt delay st =
        (Except.error (e (attempt + remaining) (step^[remaining] st)),
          step^[remaining + 1] st, remaining + 1,
          (List.range remaining).map (fun i => delay * 2 ^ i)) := by
  intro remaining
  induction remaining with
  | zero =>
    intro attempt delay st
    simp [retryLoop, h]
  | succ r ih =>
    intro attempt delay st
    simp only [retryLoop, h]
    simp only [ih (attempt + 1) (2 * delay) (step st)]
    rw [delay_schedule_cons]
    have h1 : attempt + 1 + r = attempt + (r + 1) := by omega
    have h2 : step^[r] (step st) = step^[r + 1] st :=
      (Function.iterate_succ_apply step r st).symm
    have h3 : step^[r + 1] (step st) = step^[r + 1 + 1] st :=
      (Function.iterate_succ_apply step (r + 1) st).symm
    rw [h1, h2, h3]

/-- If the first attempt succeeds, no retry, no sleep, one invocation. -/
theorem retryLoop_first_ok {σ ε α : Type} (f : Nat → σ → Except ε α × σ)
    (remaining attempt : Nat) (delay : ℚ) (st st2 : σ) (a : α)
    (h : f attempt st = (Except.ok a, st2)) :
    retryLoop f remaining attempt delay st = (Except.ok a, st2, 1, []) := by
  cases remaining <;> simp [retryLoop, h]

/-- For a pure oracle: `k` leading failures followed by a success at attempt
`attempt + k` give `k + 1` invocations, `k` sleeps and the successful result. -/
theorem retryLoop_unit_ok {ε α : Type} (func : Nat → Except ε α) (a : α) :
    ∀ (k remaining attempt : Nat) (delay : ℚ), k ≤ remaining →
      func (attempt + k) = Except.ok a →
      (∀ j, j < k → ∃ err, func (attempt + j) = Except.error err) →
      retryLoop (fun i _ => (func i, ())) remaining attempt delay () =
        (Except.ok a, (), k + 1, (List.range k).map (fun i => delay * 2 ^ i)) := by
  intro k
  induction k with
  | zero =>
    intro remaining attempt delay _ hok _
    simp only [Nat.add_zero] at hok
    cases remaining <;> simp [retryLoop, hok]
  | succ n ih =>
    intro remaining attempt delay hle hok hfail
    obtain ⟨err, herr⟩ := hfail 0 (Nat.succ_pos n)
    simp only [Nat.add_zero] at herr
    obtain ⟨r, hr⟩ : ∃ r, remaining = r + 1 := ⟨remaining - 1, by omega⟩
    subst hr
    simp only [retryLoop, herr]
    have hrec := ih r (attempt + 1) (2 * delay) (by omega)
      (by rw [show attempt + 1 + n = attempt + (n + 1) by omega]; exact hok)
      (by
        intro j hj
        obtain ⟨err2, herr2⟩ := hfail (j + 1) (by omega)
        exact ⟨err2, by rw [show attempt + 1 + j = attempt + (j + 1) by omega]; exact herr2⟩)
    simp only [hrec]
    rw [delay_schedule_cons]

/-!
 ## Errors and external collaborators

`handle` distinguishes `ValueError` (including its subclasses
`binascii.Error`, raised by `base64.b64decode`, and `json.JSONDecodeError`,
raised by `json.loads`) from every other exception.  The carried string is
`str(exc)`. -/
inductive PyErr where
  | valueError (msg : String)
  | otherError (msg : String)

/-- A Gemini response as consumed by `_extract_text`: the optional `text`
attribute (`none` when the attribute is missing or `None`) and the
`candidates[0].content.parts[0].text` path (`none` when traversing the path
raises; a path that exists is assumed to yield a string). -/
structure RemoteResponse where
  text : Option String
  candidatesText : Option String

/-- Python truthiness of an optional string (`if text:`). -/
def optStrTruthy : Option String → Bool
  | none => false
  | some s => s != ""

/-- Embeds `_extract_text` (`main.py` lines 93-100): return a truthy `text`
attribute, otherwise the candidates path, otherwise `""`. -/
def extract_text (r : RemoteResponse) : String :=
  if optStrTruthy r.text then r.text.getD ""
  else r.candidatesText.getD ""

/-- Python `str.find` for a single character: first index or `-1`. -/
def pyFindChar (s : String) (c : Char) : Int :=
  match s.toList.findIdx? (fun x => x == c) with
  | some i => (i : Int)
  | none => -1

/-- Python `str.rfind` for a single character: last index or `-1`. -/
def pyRfindChar (s : String) (c : Char) : Int :=
  match s.toList.reverse.findIdx? (fun x => x == c) with
  | some i => ((s.toList.length : Int) - 1 - (i : Int))
  | none => -1

/-- Python `s[start:stop]` for the non-negative indices used in `_extract_json`. -/
def pySlice (s : String) (start stop : Int) : String :=
  String.mk ((s.toList.drop start.toNat).take (stop - start).toNat)

/-- Embeds `_extract_json` (`main.py` lines 103-108): locate the first `` \x7b `` and
last `` \x7d ``, raise `ValueError` when absent or inverted, otherwise
`json.loads` the slice (whose parse failure is a `ValueError` as well). -/
def extract_json (loads : String → Except String Json) (text : String) : Except PyErr Json :=
  let start := pyFindChar text '\x7b'
  let stop := pyRfindChar text '\x7d'
  if start = -1 ∨ stop = -1 ∨ stop ≤ start then
    Except.error (PyErr.valueError "No JSON object found in response")
  else
    match loads (pySlice text start (stop + 1)) with
    | Except.ok j => Except.ok j
    | Except.error m => Except.error (PyErr.valueError m)

/-- Embeds `_detect_mime_type` (`main.py` lines 111-122): magic-number sniffing with
a JPEG default. -/
def detect_mime_type (imageBytes : Bytes) : String :=
  if imageBytes.take 8 = [0x89, 0x50, 0x4e, 0x47, 0x0d, 0x0a, 0x1a, 0x0a] then "image/png"
  else if imageBytes.take 2 = [0xff, 0xd8] then "image/jpeg"
  else if imageBytes.take 6 = [0x47, 0x49, 0x46, 0x38, 0x37, 0x61]
      ∨ imageBytes.take 6 = [0x47, 0x49, 0x46, 0x38, 0x39, 0x61] then "image/gif"
  else if imageBytes.take 4 = [0x52, 0x49, 0x46, 0x46]
      ∧ (imageBytes.drop 8).take 4 = [0x57, 0x45, 0x42, 0x50] then "image/webp"
  else "image/jpeg"

/-- A `types.Part`: either inline bytes with a MIME type or plain text. -/
inductive GPart where
  | bytesPart (data : Bytes) (mimeType : String)
  | textPart (text : String)

/-- A `types.Content`: a role plus its parts. -/
structure Content where
  role : String
  parts : List GPart

/-- The external collaborators of the core, as opaque functions.  `remote`
models `client.models.generate_content` and is indexed by the number of
previous remote invocations (so that successive calls may behave
differently) and by the contents sent; its `Except.error` case is any
non-`ValueError` transport/provider exception.  A Gemini client is assumed
to be constructible (`GEMINI_API_KEY` set), matching the deployed
configuration; `_get_client` failures are not modelled. -/
structure Env where
  b64decode : String → Except String Bytes
  sha256hex : Bytes → String
  jsonLoads : String → Except String Json
  remote : Nat → List Content → Except String RemoteResponse
  maxImageBytes : Option Nat
  pyStr : Json → String

/-!
 ## Prompt builders (`prompts.py`)

Pure string formatting; embedded for completeness.  `str()` rendering of
non-string JSON context values is delegated to `Env.pyStr`. -/

/-- The payload dictionary, restricted to the keys the handlers read.  Keys
carrying other runtime types than modelled here would raise `TypeError`
inside the Python handlers and are outside the model. -/
structure ChatMsg where
  role : Option String
  content : Option String
  image_base64 : Option String

/-- The `messages` key: either a JSON list of message dicts or some non-list
value (which fails `isinstance(messages, list)`). -/
inductive MessagesField where
  | list (msgs : List ChatMsg)
  | nonList

structure Payload where
  image_base64 : Option String := none
  messages : Option MessagesField := none
  plant_context : Option Json := none
  plant_name : Option String := none
  species : Option String := none
  season : Option String := none
  last_watered : Option String := none
  current_date : Option String := none
  custom_prompt : Option String := none

/-- Python `context.get(key) or "Unknown"` for string-valued context fields. -/
def orUnknown (o : Option String) : String :=
  match o with
  | some s => if s != "" then s else "Unknown"
  | none => "Unknown"

/-- Embeds `build_analyze_prompt` (`prompts.py` lines 6-48). -/
def build_analyze_prompt (context : Payload) : String :=
  let plant_name := orUnknown context.plant_name
  let species := orUnknown context.species
  let season := orUnknown context.season
  let last_watered := orUnknown context.last_watered
  let current_date := orUnknown context.current_date
  let base_prompt :=
    "You are a plant health assistant. Analyze the plant photo and return JSON only. "
    ++ "Do not include extra text or markdown.\n\n"
    ++ "Return a JSON object with exactly these keys:\n"
    ++ "status (one of: healthy, needs_attention, critical),\n"
    ++ "confidence (0.0 to 1.0),\n"
    ++ "issues (array of strings),\n"
    ++ "recommendations (array of strings),\n"
    ++ "suggested_interval_days (number),\n"
    ++ "rationale (string),\n"
    ++ "suggested_name (string, optional - provide if plant_name is Unknown).\n\n"
    ++ "Context:\n"
    ++ "- plant_name: " ++ plant_name ++ "\n"
    ++ "- species: " ++ species ++ "\n"
    ++ "- season: " ++ season ++ "\n"
    ++ "- current_date: " ++ current_date ++ "\n"
    ++ "- last_watered: " ++ last_watered ++ "\n"
  let base_prompt :=
    if plant_name = "Unknown" then
      base_prompt
      ++ "\nNOTE: The user has not provided a name for this plant. "
      ++ "Please analyze the image and suggest an appropriate name in the \x27suggested_name\x27 field. "
      ++ "This could be the common name or scientific name based on what you can identify.\n"
    else base_prompt
  let base_prompt :=
    match context.custom_prompt with
    | some cp =>
      if cp != "" then
        base_prompt
        ++ "\nUser\x27s specific question/concern: " ++ cp ++ "\n"
        ++ "Please address this question in your analysis.\n"
      else base_prompt
    | none => base_prompt
  base_prompt ++ "\nIf information is uncertain, state that in the rationale."

/-- Python `context.get(key) or "Unknown"` for a JSON context dict, rendered as by
an f-string (`str()` on non-string values, via `Env.pyStr`). -/
def ctxField (env : Env) (context : Json) (key : String) : String :=
  match jsonGet context key with
  | some v =>
    if jsonTruthy v then
      match v with
      | Json.str s => s
      | other => env.pyStr other
    else "Unknown"
  | none => "Unknown"

/-- Embeds `build_chat_prompt` (`prompts.py` lines 51-91).  `_chat` only ever calls
it with an empty message list, but the history branch is embedded too. -/
def build_chat_prompt (env : Env) (messages : List ChatMsg) (context : Json) : String :=
  let plant_name := ctxField env context "plant_name"
  let species := ctxField env context "species"
  let status := ctxField env context "last_assessment_status"
  let current_date := ctxField env context "current_date"
  let system_prompt :=
    "You are a plant care assistant. Respond to the user and return JSON only. "
    ++ "Do not include extra text or markdown.\n\n"
    ++ "Return a JSON object with exactly these keys:\n"
    ++ "reply (string),\n"
    ++ "action_suggestions (array of strings),\n"
    ++ "safety_note (string, optional).\n\n"
    ++ "Plant context:\n"
    ++ "- plant_name: " ++ plant_name ++ "\n"
    ++ "- species: " ++ species ++ "\n"
    ++ "- current_date: " ++ current_date ++ "\n"
    ++ "- last_assessment_status: " ++ status ++ "\n\n"
    ++ "If the user has attached an image, analyze it in your response. "
    ++ "Reference images in the conversation history when relevant (e.g., \x27Based on the photo you shared earlier...\x27)."
  if !messages.isEmpty then
    let history_lines := messages.foldr
      (fun msg acc =>
        let role := ((msg.role.getD "user").trim).toLower
        let content := (msg.content.getD "").trim
        let has_image := optStrTruthy msg.image_base64
        if content != "" then
          let image_note := if has_image then " [with image]" else ""
          (role ++ ": " ++ content ++ image_note) :: acc
        else acc) []
    let history :=
      if !history_lines.isEmpty then String.intercalate "\n" history_lines
      else "user: (no messages)"
    system_prompt ++ "\n\nConversation:\n" ++ history ++ "\n"
  else system_prompt

/-!
 ## RequestDispatcher (`_analyze`, `_chat`, `handle`; `main.py` lines 125-252)

The module-level mutable state is the analysis cache plus the number of
remote invocations made so far (the index fed to `Env.remote`). -/

structure ServerState where
  cache : LRUCache Json
  remoteCount : Nat

/-- One remote invocation happened. -/
def bumpRemote (st : ServerState) : ServerState :=
  { st with remoteCount := st.remoteCount + 1 }

/-- The single-element contents list `_analyze` sends: the image part followed
by the prompt part (`main.py` lines 145-148). -/
def analyzeContents (p : Payload) (imageBytes : Bytes) : List Content :=
  [{ role := "user",
     parts := [GPart.bytesPart imageBytes (detect_mime_type imageBytes),
               GPart.textPart (build_analyze_prompt p)] }]

/-- The cache-miss tail of `_analyze` (`main.py` lines 141-157): call the
remote collaborator, extract the embedded JSON, store it under the
fingerprint, return it. -/
def analyzeMiss (env : Env) (p : Payload) (now : Nat) (imageBytes : Bytes)
    (imageHash : String) (st : ServerState) : Except PyErr Json × ServerState :=
  match env.remote st.remoteCount (analyzeContents p imageBytes) with
  | Except.error m => (Except.error (PyErr.otherError m), bumpRemote st)
  | Except.ok resp =>
    match extract_json env.jsonLoads (extract_text resp) with
    | Except.error e => (Except.error e, bumpRemote st)
    | Except.ok data =>
      (Except.ok data,
        { cache := (bumpRemote st).cache.set now imageHash data,
          remoteCount := (bumpRemote st).remoteCount })

/-- Embeds `_analyze` (`main.py` lines 125-157).  `time.time()` is the supplied
`now`, used for both the cache lookup and the store of one request. -/
def analyze (env : Env) (p : Payload) (now : Nat) (st : ServerState) :
    Except PyErr Json × ServerState :=
  match p.image_base64 with
  | none => (Except.error (PyErr.valueError "image_base64 is required"), st)
  | some s =>
    if s = "" then (Except.error (PyErr.valueError "image_base64 is required"), st)
    else
      match env.b64decode s with
      | Except.error m => (Except.error (PyErr.valueError m), st)
      | Except.ok imageBytes =>
        let sizeBad : Bool :=
          match env.maxImageBytes with
          | some maxBytes => decide (maxBytes < imageBytes.length)
          | none => false
        if sizeBad then (Except.error (PyErr.valueError "image exceeds max size"), st)
        else
          let imageHash := env.sha256hex imageBytes
          let looked := st.cache.get now imageHash
          let st2 : ServerState := { st with cache := looked.2 }
          match looked.1 with
          | some cached =>
            if jsonTruthy cached then (Except.ok cached, st2)
            else analyzeMiss env p now imageBytes imageHash st2
          | none => analyzeMiss env p now imageBytes imageHash st2

/-- The per-message fold of `_chat` (`main.py` lines 187-216), processing
messages from index `i`: normalise the role (`assistant` becomes `model`),
best-effort decode the attached image (a decode failure emits a warning and
drops the image), attach the stripped text, and keep the turn only when it
has at least one part.  Returns the assembled turns and the indices of the
messages whose image decode failed (the emitted warnings). -/
def chatTurns (env : Env) : Nat → List ChatMsg → List Content × List Nat
  | _, [] => ([], [])
  | i, msg :: rest =>
    let role0 := (msg.role.getD "user").toLower
    let role := if role0 = "assistant" then "model" else role0
    let contentText := (msg.content.getD "").trim
    let imgOut : List GPart × Bool :=
      if optStrTruthy msg.image_base64 then
        match env.b64decode (msg.image_base64.getD "") with
        | Except.ok imageBytes => ([GPart.bytesPart imageBytes (detect_mime_type imageBytes)], false)
        | Except.error _ => ([], true)
      else ([], false)
    let parts := imgOut.1 ++ (if contentText != "" then [GPart.textPart contentText] else [])
    let restOut := chatTurns env (i + 1) rest
    ((if !parts.isEmpty then [Content.mk role parts] else []) ++ restOut.1,
      (if imgOut.2 then [i] else []) ++ restOut.2)

/-- The contents `_chat` sends: the synthesized system-context turns (only
when the history is non-empty) followed by the assembled message turns
(`main.py` lines 172-218). -/
def chatContents (env : Env) (msgs : List ChatMsg) (context : Json) : List Content :=
  (if !msgs.isEmpty then
    [{ role := "user", parts := [GPart.textPart (build_chat_prompt env [] context)] },
     { role := "model",
       parts := [GPart.textPart "Understood. I\x27ll provide plant care assistance with JSON responses."] }]
   else [])
  ++ (chatTurns env 0 msgs).1

/-- Python `payload.get("plant_context") or \x7b\x7d` (`main.py` line 165). -/
def chatContext (p : Payload) : Json :=
  match p.plant_context with
  | some j => if jsonTruthy j then j else Json.obj []
  | none => Json.obj []

/-- Embeds `_chat` (`main.py` lines 160-226).  Returns the result, the updated
state, and the indices of the messages whose image decode failed (the
`Warning:` diagnostics printed by the best-effort decode).  The debug
prints carry no data flow and are not modelled. -/
def chat (env : Env) (p : Payload) (st : ServerState) :
    Except PyErr Json × ServerState × List Nat :=
  match p.messages with
  | some (MessagesField.list msgs) =>
    let contents := chatContents env msgs (chatContext p)
    let warns := (chatTurns env 0 msgs).2
    match env.remote st.remoteCount contents with
    | Except.error m => (Except.error (PyErr.otherError m), bumpRemote st, warns)
    | Except.ok resp =>
      (extract_json env.jsonLoads (extract_text resp), bumpRemote st, warns)
  | _ => (Except.error (PyErr.valueError "messages must be a list"), st, [])

/-- Embeds `_chat` as the zero-argument closure retried by `handle` (warnings go to
stdout and are dropped here). -/
def chatStep (env : Env) (p : Payload) (st : ServerState) : Except PyErr Json × ServerState :=
  ((chat env p st).1, (chat env p st).2.1)

/-- An HTTP response: the JSON body (pre-serialisation) and the status code
(`_json_response`; the content-type header is constant and not modelled). -/
structure HttpResponse where
  body : Json
  status : Nat

/-- Embeds `_json_response` (`main.py` lines 65-70). -/
def json_response (payload : Json) (status : Nat) : HttpResponse :=
  { body := payload, status := status }

/-- Embeds `_error_response` (`main.py` lines 73-77): the three-field failure
envelope, always with `retryable: true`. -/
def error_response (code message : String) (status : Nat) : HttpResponse :=
  json_response
    (Json.obj [("error", Json.str code), ("message", Json.str message),
               ("retryable", Json.bool true)]) status

/-- The default `max_retries=2` of `_call_with_retry`, used by both `handle`
call sites. -/
def MAX_RETRIES : Nat := 2

/-- An inbound request as `handle` reads it: `request.method`,
`request.path` (`none`/`""` are falsy and normalise to `"/"`), and
`request.get_json(silent=True)` (`none` covers both an unparseable body and
a JSON body that is not an object, which fail the `isinstance(payload,
dict)` check together). -/
structure Request where
  method : String
  path : Option String
  body : Option Payload

/-- The observable outcome of `handle`: the response, the final module
state, the number of invocations of the retried closure, and the
`time.sleep` delays in order. -/
structure HandleOut where
  response : HttpResponse
  state : ServerState
  invocations : Nat
  sleeps : List ℚ

/-- Map the outcome of the retried closure to the response envelope, as the
`try/except` in `handle` does (`main.py` lines 238-252): success `200`,
`ValueError` to `bad_request 400`, anything else to `gemini_failed 502`. -/
def finishOut (out : Except PyErr Json × ServerState × Nat × List ℚ) : HandleOut :=
  { response :=
      match out.1 with
      | Except.ok data => json_response data 200
      | Except.error (PyErr.valueError m) => error_response "bad_request" m 400
      | Except.error (PyErr.otherError _) =>
        error_response "gemini_failed" "Gemini request failed. Please retry." 502
    state := out.2.1
    invocations := out.2.2.1
    sleeps := out.2.2.2 }

/-- Python `request.path or "/"` (`main.py` line 230): a missing or empty (falsy)
path normalises to `"/"`. -/
def normPath (path : Option String) : String :=
  match path with
  | some p => if p != "" then p else "/"
  | none => "/"

/-- Embeds `handle` (`main.py` lines 229-252): method gate, JSON-body gate, route
dispatch with both endpoints wrapped in `_call_with_retry`, and the error
mapping of the surrounding `try/except`. -/
def handle (env : Env) (req : Request) (now : Nat) (st : ServerState) : HandleOut :=
  let path := normPath req.path
  if req.method != "POST" then
    { response := json_response (Json.obj [("error", Json.str "method_not_allowed")]) 405,
      state := st, invocations := 0, sleeps := [] }
  else
    match req.body with
    | none =>
      { response := error_response "invalid_json" "Request body must be JSON" 400,
        state := st, invocations := 0, sleeps := [] }
    | some payload =>
      if path = "/analyze" then
        finishOut (retryLoop (fun _ s => analyze env payload now s) MAX_RETRIES 0 (0.8 : ℚ) st)
      else if path = "/chat" then
        finishOut (retryLoop (fun _ s => chatStep env payload s) MAX_RETRIES 0 (0.8 : ℚ) st)
      else
        { response := error_response "not_found" "Unknown endpoint" 404,
          state := st, invocations := 0, sleeps := [] }

/-!
 ## Scenario lemmas -/

/-- The validation phase of `_analyze` (`main.py` lines 126-134), as a
predicate: the `ValueError` message it raises, if any.  Mirrors the source
order: missing/falsy `image_base64`, then decode, then the optional size
limit. -/
def analyzeValidationError (env : Env) (p : Payload) : Option String :=
  match p.image_base64 with
  | none => some "image_base64 is required"
  | some s =>
    if s = "" then some "image_base64 is required"
    else
      match env.b64decode s with
      | Except.error m => some m
      | Except.ok imageBytes =>
        match env.maxImageBytes with
        | some maxBytes =>
          if maxBytes < imageBytes.length then some "image exceeds max size" else none
        | none => none

/-- The size limit check of `_analyze` passes. -/
def sizeOk (env : Env) (imageBytes : Bytes) : Prop :=
  match env.maxImageBytes with
  | some maxBytes => imageBytes.length ≤ maxBytes
  | none => True

/-- The `messages` payload fails `isinstance(messages, list)`. -/
def chatMessagesInvalid (p : Payload) : Bool :=
  match p.messages with
  | some (MessagesField.list _) => false
  | _ => true

theorem analyze_validation_eq (env : Env) (p : Payload) (msg : String)
    (h : analyzeValidationError env p = some msg) (now : Nat) (st : ServerState) :
    analyze env p now st = (Except.error (PyErr.valueError msg), st) := by
  unfold analyzeValidationError at h
  unfold analyze
  cases hib : p.image_base64 with
  | none =>
    simp only [hib] at h ⊢
    cases h
    rfl
  | some s =>
    simp only [hib] at h ⊢
    by_cases hs : s = ""
    · rw [if_pos hs] at h
      cases h
      rw [if_pos hs]
    · rw [if_neg hs] at h
      rw [if_neg hs]
      cases hdec : env.b64decode s with
      | error m =>
        simp only [hdec] at h ⊢
        cases h
        rfl
      | ok imageBytes =>
        simp only [hdec] at h ⊢
        cases hmx : env.maxImageBytes with
        | none => simp only [hmx] at h; cases h
        | some maxBytes =>
          simp only [hmx] at h ⊢
          by_cases hlt : maxBytes < imageBytes.length
          · rw [if_pos hlt] at h
            cases h
            simp [hlt]
          · rw [if_neg hlt] at h
            cases h

theorem chat_validation_eq (env : Env) (p : Payload)
    (h : chatMessagesInvalid p = true) (st : ServerState) :
    chat env p st = (Except.error (PyErr.valueError "messages must be a list"), st, []) := by
  unfold chatMessagesInvalid at h
  unfold chat
  cases hm : p.messages with
  | none => rfl
  | some f =>
    cases f with
    | list msgs => rw [hm] at h; cases h
    | nonList => rfl

theorem chatStep_validation_eq (env : Env) (p : Payload)
    (h : chatMessagesInvalid p = true) (st : ServerState) :
    chatStep env p st = (Except.error (PyErr.valueError "messages must be a list"), st) := by
  simp [chatStep, chat_validation_eq env p h st]

/-- With a validated image, `_analyze` reduces to the cache lookup on the
fingerprint: fresh truthy hit. -/
theorem analyze_hit (env : Env) (p : Payload) (now : Nat) (st : ServerState)
    (s : String) (imageBytes : Bytes) (v : Json) (ts : Nat)
    (himg : p.image_base64 = some s) (hs : s ≠ "")
    (hdec : env.b64decode s = Except.ok imageBytes) (hsize : sizeOk env imageBytes)
    (hnd : st.cache.keys.Nodup)
    (hmem : (env.sha256hex imageBytes, v, ts) ∈ st.cache.entries)
    (hfresh : now ≤ ts + st.cache.ttlSeconds) (htruthy : jsonTruthy v = true) :
    analyze env p now st =
      (Except.ok v,
        { st with cache := { st.cache with
            entries := st.cache.entries.filter (fun x => x.1 != env.sha256hex imageBytes)
              ++ [(env.sha256hex imageBytes, v, ts)] } }) := by
  unfold analyze
  simp only [himg]
  rw [if_neg hs]
  simp only [hdec]
  have hbad :
      (match env.maxImageBytes with
        | some maxBytes => decide (maxBytes < imageBytes.length)
        | none => false) = false := by
    unfold sizeOk at hsize
    cases hmx : env.maxImageBytes with
    | none => rfl
    | some maxBytes =>
      rw [hmx] at hsize
      simpa using Nat.not_lt.mpr hsize
  rw [hbad]
  simp only [Bool.false_eq_true, if_false]
  rw [get_hit_fresh st.cache now (env.sha256hex imageBytes) v ts hnd hmem hfresh]
  simp [htruthy]

/-- With a validated image and a fingerprint miss, `_analyze` reduces to the
remote phase `analyzeMiss`, with an unchanged cache. -/
theorem analyze_miss (env : Env) (p : Payload) (now : Nat) (st : ServerState)
    (s : String) (imageBytes : Bytes)
    (himg : p.image_base64 = some s) (hs : s ≠ "")
    (hdec : env.b64decode s = Except.ok imageBytes) (hsize : sizeOk env imageBytes)
    (hmiss : env.sha256hex imageBytes ∉ st.cache.keys) :
    analyze env p now st = analyzeMiss env p now imageBytes (env.sha256hex imageBytes) st := by
  unfold analyze
  simp only [himg]
  rw [if_neg hs]
  simp only [hdec]
  have hbad :
      (match env.maxImageBytes with
        | some maxBytes => decide (maxBytes < imageBytes.length)
        | none => false) = false := by
    unfold sizeOk at hsize
    cases hmx : env.maxImageBytes with
    | none => rfl
    | some maxBytes =>
      rw [hmx] at hsize
      simpa using Nat.not_lt.mpr hsize
  rw [hbad]
  simp only [Bool.false_eq_true, if_false]
  rw [get_miss st.cache now (env.sha256hex imageBytes) hmiss]

theorem bumpRemote_cache (st : ServerState) : (bumpRemote st).cache = st.cache := rfl

theorem bumpRemote_iterate (st : ServerState) (n : Nat) :
    bumpRemote^[n] st = { st with remoteCount := st.remoteCount + n } := by
  induction n with
  | zero => rfl
  | succ k ih =>
    rw [Function.iterate_succ_apply', ih]
    simp [bumpRemote, Nat.add_assoc]

/-- Running `retryLoop` under a state invariant: if every reachable attempt fails and
steps the state uniformly, the loop runs the full budget. -/
theorem retryLoop_all_fail_inv {σ ε α : Type} (f : Nat → σ → Except ε α × σ)
    (P : σ → Prop) (e : Nat → σ → ε) (step : σ → σ)
    (hstep : ∀ s, P s → P (step s))
    (h : ∀ i s, P s → f i s = (Except.error (e i s), step s)) :
    ∀ (remaining attempt : Nat) (delay : ℚ) (st : σ), P st →
      retryLoop f remaining attempt delay st =
        (Except.error (e (attempt + remaining) (step^[remaining] st)),
          step^[remaining + 1] st, remaining + 1,
          (List.range remaining).map (fun i => delay * 2 ^ i)) := by
  intro remaining
  induction remaining with
  | zero =>
    intro attempt delay st hP
    simp [retryLoop, h attempt st hP]
  | succ r ih =>
    intro attempt delay st hP
    simp only [retryLoop, h attempt st hP]
    simp only [ih (attempt + 1) (2 * delay) (step st) (hstep st hP)]
    rw [delay_schedule_cons]
    have h1 : attempt + 1 + r = attempt + (r + 1) := by omega
    have h2 : step^[r] (step st) = step^[r + 1] st :=
      (Function.iterate_succ_apply step r st).symm
    have h3 : step^[r + 1] (step st) = step^[r + 1 + 1] st :=
      (Function.iterate_succ_apply step (r + 1) st).symm
    rw [h1, h2, h3]

/-- Any state projection preserved by each attempt is preserved by the loop. -/
theorem retryLoop_proj_inv {σ ε α κ : Type} (f : Nat → σ → Except ε α × σ) (g : σ → κ)
    (h : ∀ i s, g (f i s).2 = g s) :
    ∀ (remaining attempt : Nat) (delay : ℚ) (st : σ),
      g (retryLoop f remaining attempt delay st).2.1 = g st := by
  intro remaining
  induction remaining with
  | zero =>
    intro attempt delay st
    have hg := h attempt st
    unfold retryLoop
    cases hf : f attempt st with
    | mk res st2 =>
      rw [hf] at hg
      cases res <;> simpa using hg
  | succ r ih =>
    intro attempt delay st
    have hg := h attempt st
    unfold retryLoop
    cases hf : f attempt st with
    | mk res st2 =>
      rw [hf] at hg
      cases res with
      | ok a => simpa using hg
      | error e =>
        simp only [] at hg
        exact (ih (attempt + 1) (2 * delay) st2).trans hg

/-- With a JSON body, `handle` on `POST /analyze` is the retried `_analyze`. -/
theorem handle_analyze_unfold (env : Env) (p : Payload) (now : Nat) (st : ServerState) :
    handle env { method := "POST", path := some "/analyze", body := some p } now st =
      finishOut (retryLoop (fun _ s => analyze env p now s) MAX_RETRIES 0 (0.8 : ℚ) st) := rfl

/-- With a JSON body, `handle` on `POST /chat` is the retried `_chat`. -/
theorem handle_chat_unfold (env : Env) (p : Payload) (now : Nat) (st : ServerState) :
    handle env { method := "POST", path := some "/chat", body := some p } now st =
      finishOut (retryLoop (fun _ s => chatStep env p s) MAX_RETRIES 0 (0.8 : ℚ) st) := rfl

-- Field preservation and trace lemmas for the cache.

theorem get_maxSize {V : Type} (c : LRUCache V) (now : Nat) (k : String) :
    ((c.get now k).2).maxSize = c.maxSize := by
  simp only [LRUCache.get]
  cases hf : c.entries.find? (fun e => e.1 == k) with
  | none => rfl
  | some e => by_cases h : now - e.2.2 > c.ttlSeconds <;> simp [h]

theorem get_ttl {V : Type} (c : LRUCache V) (now : Nat) (k : String) :
    ((c.get now k).2).ttlSeconds = c.ttlSeconds := by
  simp only [LRUCache.get]
  cases hf : c.entries.find? (fun e => e.1 == k) with
  | none => rfl
  | some e => by_cases h : now - e.2.2 > c.ttlSeconds <;> simp [h]

theorem set_maxSize {V : Type} (c : LRUCache V) (now : Nat) (k : String) (v : V) :
    (c.set now k v).maxSize = c.maxSize := rfl

theorem set_ttl {V : Type} (c : LRUCache V) (now : Nat) (k : String) (v : V) :
    (c.set now k v).ttlSeconds = c.ttlSeconds := rfl

theorem applyOp_maxSize {V : Type} (c : LRUCache V) (op : CacheOp V) :
    (applyOp c op).maxSize = c.maxSize := by
  cases op with
  | get now k => exact get_maxSize c now k
  | set now k v => rfl

theorem applyOp_ttl {V : Type} (c : LRUCache V) (op : CacheOp V) :
    (applyOp c op).ttlSeconds = c.ttlSeconds := by
  cases op with
  | get now k => exact get_ttl c now k
  | set now k v => rfl

theorem applyOp_length_le {V : Type} (c : LRUCache V) (op : CacheOp V)
    (h : c.entries.length ≤ c.maxSize) :
    (applyOp c op).entries.length ≤ (applyOp c op).maxSize := by
  rw [applyOp_maxSize]
  cases op with
  | get now k => exact Nat.le_trans (get_length_le c now k) h
  | set now k v => exact set_length_le c now k v

theorem runOps_append {V : Type} (c : LRUCache V) (l1 l2 : List (CacheOp V)) :
    runOps c (l1 ++ l2) = runOps (runOps c l1) l2 :=
  List.foldl_append _ _ _ _

theorem runOps_maxSize {V : Type} (c : LRUCache V) (ops : List (CacheOp V)) :
    (runOps c ops).maxSize = c.maxSize := by
  induction ops generalizing c with
  | nil => rfl
  | cons op rest ih =>
    show (runOps (applyOp c op) rest).maxSize = c.maxSize
    rw [ih (applyOp c op), applyOp_maxSize]

theorem runOps_ttl {V : Type} (c : LRUCache V) (ops : List (CacheOp V)) :
    (runOps c ops).ttlSeconds = c.ttlSeconds := by
  induction ops generalizing c with
  | nil => rfl
  | cons op rest ih =>
    show (runOps (applyOp c op) rest).ttlSeconds = c.ttlSeconds
    rw [ih (applyOp c op), applyOp_ttl]

/-- The capacity invariant is preserved along any trace. -/
theorem runOps_length_le {V : Type} (c : LRUCache V) (ops : List (CacheOp V))
    (h : c.entries.length ≤ c.maxSize) :
    (runOps c ops).entries.length ≤ c.maxSize := by
  induction ops generalizing c with
  | nil => simpa [runOps]
  | cons op rest ih =>
    show (runOps (applyOp c op) rest).entries.length ≤ c.maxSize
    rw [show c.maxSize = (applyOp c op).maxSize from (applyOp_maxSize c op).symm]
    exact ih (applyOp c op) (applyOp_length_le c op h)

/-- Index bookkeeping for one fresh insertion over an already-truncated list. -/
theorem drop_append_singleton_helper {A : Type} (ks : List A) (k : A) (m : Nat) (hm : 0 < m) :
    (ks.drop (ks.length - m)).drop ((ks.drop (ks.length - m)).length + 1 - m) ++ [k]
      = (ks ++ [k]).drop ((ks ++ [k]).length - m) := by
  rw [List.drop_drop, List.length_drop, List.length_append]
  simp only [List.length_cons, List.length_nil, Nat.zero_add]
  rw [List.drop_append_of_le_length (by omega)]
  rw [show ks.length - m + (ks.length - (ks.length - m) + 1 - m) = ks.length + 1 - m by omega]

/-- Inserting a list of distinct fresh keys keeps exactly the most recent
`maxSize` of them, in order. -/
theorem runOps_distinct_sets {V : Type} (v : V) (t m ttl : Nat) (hm : 0 < m)
    (keys : List String) (hnd : keys.Nodup) :
    (runOps (LRUCache.empty m ttl) (keys.map (fun k => CacheOp.set t k v))).entries =
      (keys.drop (keys.length - m)).map (fun k => (k, v, t)) := by
  induction keys using List.reverseRecOn with
  | nil => simp [runOps, LRUCache.empty]
  | append_singleton ks k ih =>
    have hnd2 := List.nodup_append.mp hnd
    have hks : ks.Nodup := hnd2.1
    have hk : k ∉ ks := by
      intro hmem
      exact hnd2.2.2 hmem (List.mem_singleton_self k)
    rw [List.map_append, List.map_singleton, runOps_append]
    set prev := runOps (LRUCache.empty m ttl) (ks.map (fun k2 => CacheOp.set t k2 v)) with hprev
    have hprevE : prev.entries = (ks.drop (ks.length - m)).map (fun k2 => (k2, v, t)) := ih hks
    have hprevM : prev.maxSize = m := by
      rw [hprev, runOps_maxSize]
      rfl
    have hprevKeys : prev.keys = ks.drop (ks.length - m) := by
      rw [LRUCache.keys, hprevE, List.map_map]
      exact List.map_id _
    have hkPrev : k ∉ prev.keys := by
      rw [hprevKeys]
      intro hmem
      exact hk (List.mem_of_mem_drop hmem)
    show (prev.set t k v).entries = _
    rw [set_fresh_entries_eq prev t k v hkPrev (by rw [hprevM]; exact hm)]
    rw [hprevE, hprevM, List.length_map]
    calc ((ks.drop (ks.length - m)).map (fun k2 => (k2, v, t))).drop
          ((ks.drop (ks.length - m)).length + 1 - m) ++ [(k, v, t)]
        = ((ks.drop (ks.length - m)).drop
            ((ks.drop (ks.length - m)).length + 1 - m)).map (fun k2 => (k2, v, t))
            ++ [(k, v, t)] := by
          rw [← List.map_drop]
      _ = (((ks.drop (ks.length - m)).drop ((ks.drop (ks.length - m)).length + 1 - m))
            ++ [k]).map (fun k2 => (k2, v, t)) := by
          rw [List.map_append, List.map_singleton]
      _ = ((ks ++ [k]).drop ((ks ++ [k]).length - m)).map (fun k2 => (k2, v, t)) := by
          rw [drop_append_singleton_helper ks k m hm]

-- `_chat` never touches the analysis cache, and its outcome does not depend
-- on it (`main.py` lines 160-226 contain no reference to `_analysis_cache`).

theorem chat_cache_eq (env : Env) (p : Payload) (st : ServerState) :
    (chat env p st).2.1.cache = st.cache := by
  unfold chat
  split
  · dsimp only
    split <;> rfl
  · rfl

theorem chatStep_cache_eq (env : Env) (p : Payload) (st : ServerState) :
    (chatStep env p st).2.cache = st.cache :=
  chat_cache_eq env p st

theorem chat_cache_independent (env : Env) (p : Payload) (c1 c2 : LRUCache Json) (n : Nat) :
    (chat env p { cache := c1, remoteCount := n }).1 =
      (chat env p { cache := c2, remoteCount := n }).1
    ∧ (chat env p { cache := c1, remoteCount := n }).2.2 =
      (chat env p { cache := c2, remoteCount := n }).2.2 := by
  unfold chat
  cases hp : p.messages with
  | none => exact ⟨rfl, rfl⟩
  | some f =>
    cases f with
    | nonList => exact ⟨rfl, rfl⟩
    | list msgs =>
      dsimp only
      cases hr : env.remote n (chatContents env msgs (chatContext p)) <;> exact ⟨rfl, rfl⟩

/-- Replacing a message whose attached image fails to decode by the same
message without the image leaves the assembled turns unchanged, and the
failing message's index is recorded as a warning. -/
theorem chatTurns_drop_failed (env : Env) (s : String) (hs : s ≠ "")
    (hfail : ∃ err, env.b64decode s = Except.error err) :
    ∀ (msgs : List ChatMsg) (j i : Nat) (m : ChatMsg),
      msgs.get? j = some m → m.image_base64 = some s →
      (chatTurns env i (msgs.set j { m with image_base64 := none })).1 =
        (chatTurns env i msgs).1
      ∧ (i + j) ∈ (chatTurns env i msgs).2 := by
  intro msgs
  induction msgs with
  | nil => intro j i m hget; cases hget
  | cons hd tl ih =>
    intro j i m hget him
    cases j with
    | zero =>
      obtain ⟨err, herr⟩ := hfail
      have hhd : hd = m := by
        simpa using hget
      subst hhd
      have hsb : (s != "") = true := by simpa using hs
      constructor
      · show (chatTurns env i ({ hd with image_base64 := none } :: tl)).1 = _
        simp [chatTurns, him, hsb, herr, optStrTruthy]
      · simp [chatTurns, him, hsb, herr, optStrTruthy]
    | succ jj =>
      have hget2 : tl.get? jj = some m := by simpa using hget
      have hrec := ih jj (i + 1) m hget2 him
      have harr : i + 1 + jj = i + (jj + 1) := by omega
      constructor
      · show (chatTurns env i (hd :: tl.set jj { m with image_base64 := none })).1 = _
        simp only [chatTurns]
        rw [hrec.1]
      · simp only [chatTurns, List.mem_append]
        right
        rw [← harr]
        exact hrec.2

-- `_extract_text` / `_extract_json` corner behaviour.

theorem extract_text_empty (r : RemoteResponse)
    (h1 : optStrTruthy r.text = false) (h2 : r.candidatesText = none) :
    extract_text r = "" := by
  simp [extract_text, h1, h2]

theorem extract_json_empty (loads : String → Except String Json) :
    extract_json loads "" =
      Except.error (PyErr.valueError "No JSON object found in response") := rfl

/-- The two backoff sleeps of the default budget (`0.8`, then doubled). -/
theorem retry_sleeps_eq :
    (List.range MAX_RETRIES).map (fun i => (0.8 : ℚ) * 2 ^ i) = [(0.8 : ℚ), (1.6 : ℚ)] := by
  norm_num [MAX_RETRIES, List.range_succ]

-- `handle` routing gates.

theorem handle_not_post (env : Env) (req : Request) (now : Nat) (st : ServerState)
    (h : req.method ≠ "POST") :
    handle env req now st =
      { response := json_response (Json.obj [("error", Json.str "method_not_allowed")]) 405,
        state := st, invocations := 0, sleeps := [] } := by
  unfold handle
  have hb : (req.method != "POST") = true := by simpa using h
  rw [hb]
  rfl

theorem handle_no_body (env : Env) (req : Request) (now : Nat) (st : ServerState)
    (hm : req.method = "POST") (hb : req.body = none) :
    handle env req now st =
      { response := error_response "invalid_json" "Request body must be JSON" 400,
        state := st, invocations := 0, sleeps := [] } := by
  unfold handle
  have hmb : (req.method != "POST") = false := by simp [hm]
  rw [hmb, hb]
  exact rfl

theorem handle_unknown_route (env : Env) (req : Request) (now : Nat) (st : ServerState)
    (p : Payload) (hm : req.method = "POST") (hb : req.body = some p)
    (h1 : normPath req.path ≠ "/analyze") (h2 : normPath req.path ≠ "/chat") :
    handle env req now st =
      { response := error_response "not_found" "Unknown endpoint" 404,
        state := st, invocations := 0, sleeps := [] } := by
  unfold handle
  have hmb : (req.method != "POST") = false := by simp [hm]
  rw [hmb, hb]
  simp only [Bool.false_eq_true, if_false]
  rw [if_neg h1, if_neg h2]

-- Validation failures pass through the whole retry budget unchanged.

theorem handle_analyze_validation (env : Env) (p : Payload) (msg : String) (now : Nat)
    (st : ServerState) (h : analyzeValidationError env p = some msg) :
    handle env { method := "POST", path := some "/analyze", body := some p } now st =
      { response := error_response "bad_request" msg 400, state := st,
        invocations := 3, sleeps := [(0.8 : ℚ), (1.6 : ℚ)] } := by
  rw [handle_analyze_unfold]
  rw [retryLoop_all_fail (fun _ s => analyze env p now s) (fun _ _ => PyErr.valueError msg) id
    (fun i s => by
      show analyze env p now s = (Except.error (PyErr.valueError msg), id s)
      rw [analyze_validation_eq env p msg h now s]
      rfl) MAX_RETRIES 0 (0.8 : ℚ) st]
  rw [retry_sleeps_eq]
  simp [finishOut, MAX_RETRIES, Function.iterate_id]

theorem handle_chat_validation (env : Env) (p : Payload) (now : Nat) (st : ServerState)
    (h : chatMessagesInvalid p = true) :
    handle env { method := "POST", path := some "/chat", body := some p } now st =
      { response := error_response "bad_request" "messages must be a list" 400, state := st,
        invocations := 3, sleeps := [(0.8 : ℚ), (1.6 : ℚ)] } := by
  rw [handle_chat_unfold]
  rw [retryLoop_all_fail (fun _ s => chatStep env p s)
    (fun _ _ => PyErr.valueError "messages must be a list") id
    (fun i s => by
      show chatStep env p s = (Except.error (PyErr.valueError "messages must be a list"), id s)
      rw [chatStep_validation_eq env p h s]
      rfl) MAX_RETRIES 0 (0.8 : ℚ) st]
  rw [retry_sleeps_eq]
  simp [finishOut, MAX_RETRIES, Function.iterate_id]

-- Cache hits answer on the first attempt with no remote call and no sleep.

theorem handle_analyze_hit (env : Env) (p : Payload) (now : Nat) (st : ServerState)
    (s : String) (imageBytes : Bytes) (v : Json) (ts : Nat)
    (himg : p.image_base64 = some s) (hs : s ≠ "")
    (hdec : env.b64decode s = Except.ok imageBytes) (hsize : sizeOk env imageBytes)
    (hnd : st.cache.keys.Nodup)
    (hmem : (env.sha256hex imageBytes, v, ts) ∈ st.cache.entries)
    (hfresh : now ≤ ts + st.cache.ttlSeconds) (htruthy : jsonTruthy v = true) :
    handle env { method := "POST", path := some "/analyze", body := some p } now st =
      { response := json_response v 200,
        state := { st with cache := { st.cache with
            entries := st.cache.entries.filter (fun x => x.1 != env.sha256hex imageBytes)
              ++ [(env.sha256hex imageBytes, v, ts)] } },
        invocations := 1, sleeps := [] } := by
  rw [handle_analyze_unfold]
  rw [retryLoop_first_ok _ MAX_RETRIES 0 (0.8 : ℚ) st _ v
    (analyze_hit env p now st s imageBytes v ts himg hs hdec hsize hnd hmem hfresh htruthy)]
  rfl

-- A cache miss with a successful remote call stores and returns the result.

theorem handle_analyze_miss_success (env : Env) (p : Payload) (now : Nat) (st : ServerState)
    (s : String) (imageBytes : Bytes) (resp : RemoteResponse) (data : Json)
    (himg : p.image_base64 = some s) (hs : s ≠ "")
    (hdec : env.b64decode s = Except.ok imageBytes) (hsize : sizeOk env imageBytes)
    (hmiss : env.sha256hex imageBytes ∉ st.cache.keys)
    (hrem : env.remote st.remoteCount (analyzeContents p imageBytes) = Except.ok resp)
    (hext : extract_json env.jsonLoads (extract_text resp) = Except.ok data) :
    handle env { method := "POST", path := some "/analyze", body := some p } now st =
      { response := json_response data 200,
        state := { cache := st.cache.set now (env.sha256hex imageBytes) data,
                   remoteCount := st.remoteCount + 1 },
        invocations := 1, sleeps := [] } := by
  rw [handle_analyze_unfold]
  have hstep : analyze env p now st =
      (Except.ok data,
        { cache := st.cache.set now (env.sha256hex imageBytes) data,
          remoteCount := st.remoteCount + 1 }) := by
    rw [analyze_miss env p now st s imageBytes himg hs hdec hsize hmiss]
    unfold analyzeMiss
    rw [hrem]
    dsimp only
    rw [hext]
    exact rfl
  rw [retryLoop_first_ok _ MAX_RETRIES 0 (0.8 : ℚ) st _ data hstep]
  rfl

-- Remote failures burn the whole retry budget and surface as 502.

theorem handle_analyze_remote_down (env : Env) (p : Payload) (now : Nat) (st : ServerState)
    (s : String) (imageBytes : Bytes) (mfn : Nat → String)
    (himg : p.image_base64 = some s) (hs : s ≠ "")
    (hdec : env.b64decode s = Except.ok imageBytes) (hsize : sizeOk env imageBytes)
    (hmiss : env.sha256hex imageBytes ∉ st.cache.keys)
    (hrem : ∀ i, env.remote i (analyzeContents p imageBytes) = Except.error (mfn i)) :
    handle env { method := "POST", path := some "/analyze", body := some p } now st =
      { response := error_response "gemini_failed" "Gemini request failed. Please retry." 502,
        state := { st with remoteCount := st.remoteCount + 3 },
        invocations := 3, sleeps := [(0.8 : ℚ), (1.6 : ℚ)] } := by
  rw [handle_analyze_unfold]
  rw [retryLoop_all_fail_inv (fun _ s2 => analyze env p now s2)
    (fun s2 => s2.cache = st.cache)
    (fun _ s2 => PyErr.otherError (mfn s2.remoteCount)) bumpRemote
    (fun s2 hP => by simp [bumpRemote, hP])
    (fun i s2 hP => by
      have hP2 : s2.cache = st.cache := hP
      show analyze env p now s2 = (Except.error (PyErr.otherError (mfn s2.remoteCount)), bumpRemote s2)
      rw [analyze_miss env p now s2 s imageBytes himg hs hdec hsize (by rw [hP2]; exact hmiss)]
      unfold analyzeMiss
      rw [hrem s2.remoteCount])
    MAX_RETRIES 0 (0.8 : ℚ) st rfl]
  rw [retry_sleeps_eq]
  rw [show MAX_RETRIES + 1 = 3 from rfl]
  rw [bumpRemote_iterate st 3]
  rfl

-- A remote response exposing no text surfaces as 400, not 502.

theorem handle_analyze_no_json (env : Env) (p : Payload) (now : Nat) (st : ServerState)
    (s : String) (imageBytes : Bytes) (resp : RemoteResponse)
    (himg : p.image_base64 = some s) (hs : s ≠ "")
    (hdec : env.b64decode s = Except.ok imageBytes) (hsize : sizeOk env imageBytes)
    (hmiss : env.sha256hex imageBytes ∉ st.cache.keys)
    (hrem : ∀ i, env.remote i (analyzeContents p imageBytes) = Except.ok resp)
    (htext : optStrTruthy resp.text = false) (hcand : resp.candidatesText = none) :
    handle env { method := "POST", path := some "/analyze", body := some p } now st =
      { response := error_response "bad_request" "No JSON object found in response" 400,
        state := { st with remoteCount := st.remoteCount + 3 },
        invocations := 3, sleeps := [(0.8 : ℚ), (1.6 : ℚ)] } := by
  rw [handle_analyze_unfold]
  rw [retryLoop_all_fail_inv (fun _ s2 => analyze env p now s2)
    (fun s2 => s2.cache = st.cache)
    (fun _ _ => PyErr.valueError "No JSON object found in response") bumpRemote
    (fun s2 hP => by simp [bumpRemote, hP])
    (fun i s2 hP => by
      have hP2 : s2.cache = st.cache := hP
      show analyze env p now s2 =
        (Except.error (PyErr.valueError "No JSON object found in response"), bumpRemote s2)
      rw [analyze_miss env p now s2 s imageBytes himg hs hdec hsize (by rw [hP2]; exact hmiss)]
      unfold analyzeMiss
      rw [hrem s2.remoteCount]
      dsimp only
      rw [extract_text_empty resp htext hcand, extract_json_empty])
    MAX_RETRIES 0 (0.8 : ℚ) st rfl]
  rw [retry_sleeps_eq]
  rw [show MAX_RETRIES + 1 = 3 from rfl]
  rw [bumpRemote_iterate st 3]
  rfl

/-!
 ## Concrete instantiations for closed runs

A computable stand-in for the external collaborators: `b64decode` fails
exactly on the input `"bad"`, the fingerprint renders the byte sum, and
`jsonLoads` parses the two texts the closed runs produce (agreeing with
`json.loads` there). -/
def demoEnv (remote : Nat → List Content → Except String RemoteResponse) : Env :=
  { b64decode := fun s =>
      if s = "bad" then Except.error "Invalid base64-encoded string"
      else Except.ok (s.toList.map Char.toNat),
    sha256hex := fun b => "h" ++ toString (b.foldl (fun a x => a + x) 0),
    jsonLoads := fun s =>
      if s = "\x7b\x7d" then Except.ok (Json.obj [])
      else if s = "\x7b\"status\": \"ok\"\x7d" then
        Except.ok (Json.obj [("status", Json.str "ok")])
      else Except.error "Expecting value: line 1 column 1 (char 0)",
    remote := remote,
    maxImageBytes := none,
    pyStr := fun _ => "" }

/-- A backend that always answers with the bare text `` \x7b\x7d ``. -/
def envEmptyObj : Env :=
  demoEnv (fun _ _ => Except.ok { text := some "\x7b\x7d", candidatesText := none })

/-- A backend that always answers with a non-empty JSON object. -/
def envOkStatus : Env :=
  demoEnv (fun _ _ => Except.ok { text := some "\x7b\"status\": \"ok\"\x7d", candidatesText := none })

/-- A backend whose responses expose neither `text` nor the candidates path. -/
def envNoText : Env :=
  demoEnv (fun _ _ => Except.ok { text := none, candidatesText := none })

/-- A backend that fails on every invocation. -/
def envDown : Env :=
  demoEnv (fun _ _ => Except.error "Service unavailable")

/-- The module state right after import: empty cache with the default
`CACHE_MAX_SIZE = 100` and `CACHE_TTL_SECONDS = 3600`. -/
def initialState : ServerState :=
  { cache := LRUCache.empty 100 3600, remoteCount := 0 }

def reqAnalyzeImg : Request :=
  { method := "POST", path := some "/analyze", body := some { image_base64 := some "img" } }

def reqAnalyzeNoImg : Request :=
  { method := "POST", path := some "/analyze", body := some {} }

/-!
 ## Claims -/

/-- Claim C1, counterexample.  A `POST /analyze` request with no
`image_base64` is a validation failure, yet the retried closure is invoked
three times (not once) with two backoff sleeps before the `400` surfaces;
no remote call is ever made (`remoteCount` stays `0`).  This refutes
"short-circuits before any retry attempt or backoff sleep". -/
theorem claim_C1_counterexample :
    (handle envEmptyObj reqAnalyzeNoImg 0 initialState).invocations = 3
    ∧ (handle envEmptyObj reqAnalyzeNoImg 0 initialState).sleeps = [(0.8 : ℚ), (1.6 : ℚ)]
    ∧ (handle envEmptyObj reqAnalyzeNoImg 0 initialState).state.remoteCount = 0
    ∧ (handle envEmptyObj reqAnalyzeNoImg 0 initialState).response.status = 400 := by
  have h := handle_analyze_validation envEmptyObj {} "image_base64 is required" 0 initialState rfl
  simp only [reqAnalyzeNoImg]
  rw [h]
  exact ⟨rfl, rfl, rfl, rfl⟩

/-- Claim C1, amended.  Validation failures (falsy/missing `image_base64`,
decode failure, oversized image on `/analyze`; non-list `messages` on
`/chat`) surface to the caller as a `400 bad_request` response and never
reach the remote collaborator (the state, hence `remoteCount`, is
unchanged) — but they do not short-circuit the retry loop: the operation is
re-invoked through the full budget (3 invocations) with backoff sleeps
`0.8` and `1.6` between attempts. -/
theorem claim_C1_thm :
    (∀ (env : Env) (p : Payload) (msg : String) (now : Nat) (st : ServerState),
      analyzeValidationError env p = some msg →
      handle env { method := "POST", path := some "/analyze", body := some p } now st =
        { response := error_response "bad_request" msg 400, state := st,
          invocations := 3, sleeps := [(0.8 : ℚ), (1.6 : ℚ)] })
    ∧ (∀ (env : Env) (p : Payload) (now : Nat) (st : ServerState),
      chatMessagesInvalid p = true →
      handle env { method := "POST", path := some "/chat", body := some p } now st =
        { response := error_response "bad_request" "messages must be a list" 400, state := st,
          invocations := 3, sleeps := [(0.8 : ℚ), (1.6 : ℚ)] }) :=
  ⟨fun env p msg now st h => handle_analyze_validation env p msg now st h,
   fun env p now st h => handle_chat_validation env p now st h⟩

/-- Claim C1, witness.  The amended claim at concrete inputs: a missing image
on `/analyze` and a missing message list on `/chat`. -/
theorem claim_C1_witness :
    handle envEmptyObj { method := "POST", path := some "/analyze", body := some {} } 5 initialState =
      { response := error_response "bad_request" "image_base64 is required" 400,
        state := initialState, invocations := 3, sleeps := [(0.8 : ℚ), (1.6 : ℚ)] }
    ∧ handle envEmptyObj { method := "POST", path := some "/chat", body := some {} } 5 initialState =
      { response := error_response "bad_request" "messages must be a list" 400,
        state := initialState, invocations := 3, sleeps := [(0.8 : ℚ), (1.6 : ℚ)] } :=
  ⟨claim_C1_thm.1 envEmptyObj {} "image_base64 is required" 5 initialState rfl,
   claim_C1_thm.2 envEmptyObj {} 5 initialState rfl⟩

/-- Claim C2, counterexample.  Two identical `/analyze` payloads, with the
remote collaborator answering the bare text `` \x7b\x7d ``: the first call
succeeds with the empty object and stores it under the fingerprint, but the
second call — cached, identical, unexpired — still performs a second remote
invocation, because `if cached:` is false for an empty dict.  This refutes
"for every cached JSON value including an empty object". -/
theorem claim_C2_counterexample :
    (handle envEmptyObj reqAnalyzeImg 0 initialState).response.status = 200
    ∧ (handle envEmptyObj reqAnalyzeImg 0 initialState).response.body = Json.obj []
    ∧ (handle envEmptyObj reqAnalyzeImg 0 initialState).state.remoteCount = 1
    ∧ ((handle envEmptyObj reqAnalyzeImg 0 initialState).state.cache.entries.map
        (fun e => e.2.1)) = [Json.obj []]
    ∧ (handle envEmptyObj reqAnalyzeImg 1
        (handle envEmptyObj reqAnalyzeImg 0 initialState).state).state.remoteCount = 2 :=
  ⟨rfl, rfl, rfl, rfl, rfl⟩

/-- Claim C2, amended.  For every analyze request whose fingerprint is present
and unexpired in the cache with a *truthy* (non-empty) stored JSON value,
the stored result is returned with status 200, no remote invocation, a
single invocation of the closure and no sleep, and the entry is promoted to
most-recently-used; consequently two identical payloads submitted
sequentially yield the first call's result on the second call with no
second remote invocation *whenever the first result is non-empty*.  (A
cached empty object is treated as a miss; the lookup happens inside the
first attempt of the retry executor.) -/
theorem claim_C2_thm :
    (∀ (env : Env) (p : Payload) (now : Nat) (st : ServerState) (s : String)
      (imageBytes : Bytes) (v : Json) (ts : Nat),
      p.image_base64 = some s → s ≠ "" →
      env.b64decode s = Except.ok imageBytes → sizeOk env imageBytes →
      st.cache.keys.Nodup →
      (env.sha256hex imageBytes, v, ts) ∈ st.cache.entries →
      now ≤ ts + st.cache.ttlSeconds → jsonTruthy v = true →
      handle env { method := "POST", path := some "/analyze", body := some p } now st =
        { response := json_response v 200,
          state := { st with cache := { st.cache with
              entries := st.cache.entries.filter (fun x => x.1 != env.sha256hex imageBytes)
                ++ [(env.sha256hex imageBytes, v, ts)] } },
          invocations := 1, sleeps := [] })
    ∧ (∀ (env : Env) (p : Payload) (now now2 : Nat) (st : ServerState) (s : String)
      (imageBytes : Bytes) (resp : RemoteResponse) (data : Json),
      p.image_base64 = some s → s ≠ "" →
      env.b64decode s = Except.ok imageBytes → sizeOk env imageBytes →
      st.cache.keys.Nodup →
      env.sha256hex imageBytes ∉ st.cache.keys →
      0 < st.cache.maxSize →
      env.remote st.remoteCount (analyzeContents p imageBytes) = Except.ok resp →
      extract_json env.jsonLoads (extract_text resp) = Except.ok data →
      jsonTruthy data = true →
      now2 ≤ now + st.cache.ttlSeconds →
      (handle env { method := "POST", path := some "/analyze", body := some p } now st).response
          = json_response data 200
      ∧ (handle env { method := "POST", path := some "/analyze", body := some p } now st).state.remoteCount
          = st.remoteCount + 1
      ∧ (handle env { method := "POST", path := some "/analyze", body := some p } now2
          (handle env { method := "POST", path := some "/analyze", body := some p } now st).state).response
          = json_response data 200
      ∧ (handle env { method := "POST", path := some "/analyze", body := some p } now2
          (handle env { method := "POST", path := some "/analyze", body := some p } now st).state).state.remoteCount
          = st.remoteCount + 1
      ∧ (handle env { method := "POST", path := some "/analyze", body := some p } now2
          (handle env { method := "POST", path := some "/analyze", body := some p } now st).state).invocations = 1
      ∧ (handle env { method := "POST", path := some "/analyze", body := some p } now2
          (handle env { method := "POST", path := some "/analyze", body := some p } now st).state).sleeps = []) := by
  constructor
  · intro env p now st s imageBytes v ts himg hs hdec hsize hnd hmem hfresh htruthy
    exact handle_analyze_hit env p now st s imageBytes v ts himg hs hdec hsize hnd hmem hfresh htruthy
  · intro env p now now2 st s imageBytes resp data himg hs hdec hsize hnd hmiss hcap hrem hext htruthy hfresh
    have h1 := handle_analyze_miss_success env p now st s imageBytes resp data
      himg hs hdec hsize hmiss hrem hext
    have hset := set_fresh_entries_eq st.cache now (env.sha256hex imageBytes) data hmiss hcap
    have hnd1 : ((st.cache.set now (env.sha256hex imageBytes) data).keys).Nodup :=
      nodup_keys_set st.cache now (env.sha256hex imageBytes) data hnd
    have hmem1 : (env.sha256hex imageBytes, data, now)
        ∈ (st.cache.set now (env.sha256hex imageBytes) data).entries := by
      rw [hset]
      exact List.mem_append_right _ (List.mem_singleton_self _)
    have hfresh1 : now2 ≤ now + (st.cache.set now (env.sha256hex imageBytes) data).ttlSeconds := by
      rw [set_ttl]
      exact hfresh
    have h2 := handle_analyze_hit env p now2
      { cache := st.cache.set now (env.sha256hex imageBytes) data,
        remoteCount := st.remoteCount + 1 }
      s imageBytes data now himg hs hdec hsize hnd1 hmem1 hfresh1 htruthy
    rw [h1]
    exact ⟨rfl, rfl, by rw [h2], by rw [h2], by rw [h2], by rw [h2]⟩

/-- A state whose cache already holds a truthy result under the fingerprint
of the demo image (byte sum 317). -/
def seededState : ServerState :=
  { cache :=
      { entries := [("h317", Json.obj [("status", Json.str "ok")], 0)],
        maxSize := 100,
        ttlSeconds := 3600 },
    remoteCount := 0 }

/-- Claim C2, witness.  The amended claim at concrete inputs: a pre-populated
cache entry with a truthy value is served without a remote call, and an
end-to-end pair of identical calls against `envOkStatus` reuses the first
(non-empty) result. -/
theorem claim_C2_witness :
    handle envOkStatus reqAnalyzeImg 3 seededState =
      { response := json_response (Json.obj [("status", Json.str "ok")]) 200,
        state := seededState,
        invocations := 1,
        sleeps := [] }
    ∧ (handle envOkStatus reqAnalyzeImg 1
        (handle envOkStatus reqAnalyzeImg 0 initialState).state).state.remoteCount = 1 := by
  constructor
  · have h := claim_C2_thm.1 envOkStatus { image_base64 := some "img" } 3 seededState
      "img" [105, 109, 103] (Json.obj [("status", Json.str "ok")]) 0
      rfl (by decide) rfl trivial (by decide) (by simp [seededState]; decide) (by decide) rfl
    exact h.trans (by exact rfl)
  · have h := claim_C2_thm.2 envOkStatus { image_base64 := some "img" } 0 1 initialState
      "img" [105, 109, 103] { text := some "\x7b\"status\": \"ok\"\x7d", candidatesText := none }
      (Json.obj [("status", Json.str "ok")])
      rfl (by decide) rfl trivial (by decide) (by decide) (by decide) rfl rfl rfl (by decide)
    exact h.2.2.2.1

/-- Claim C3.  For every capacity `m > 0`: (i) along any trace of `get`/`set`
operations from the empty cache, the entry count stays `≤ m` after each
operation; (ii) inserting `m + k` distinct keys leaves exactly the last `m`
of them, in insertion order, i.e. the most recently inserted keys. -/
theorem claim_C3_thm {V : Type} (m ttl : Nat) (hm : 0 < m) :
    (∀ (ops : List (CacheOp V)) (i : Nat),
      (runOps (LRUCache.empty m ttl) (ops.take i)).entries.length ≤ m)
    ∧ (∀ (keys : List String) (v : V) (t : Nat), keys.Nodup → m ≤ keys.length →
      (runOps (LRUCache.empty m ttl) (keys.map (fun k => CacheOp.set t k v))).entries =
        (keys.drop (keys.length - m)).map (fun k => (k, v, t))
      ∧ (runOps (LRUCache.empty m ttl) (keys.map (fun k => CacheOp.set t k v))).entries.length
          = m) := by
  constructor
  · intro ops i
    have h := runOps_length_le (LRUCache.empty m ttl) (ops.take i)
      (by simp [LRUCache.empty])
    simpa [LRUCache.empty] using h
  · intro keys v t hnd hlen
    have he := runOps_distinct_sets v t m ttl hm keys hnd
    refine ⟨he, ?_⟩
    rw [he, List.length_map, List.length_drop]
    omega

/-- Claim C3, witness.  Capacity 2 with three distinct keys keeps the last
two; a three-operation trace stays within capacity. -/
theorem claim_C3_witness :
    (runOps (LRUCache.empty 2 10)
      ([CacheOp.set 0 "a" (1 : Nat), CacheOp.set 0 "b" 2, CacheOp.get 0 "a"].take 3)).entries.length
        ≤ 2
    ∧ (runOps (LRUCache.empty 2 10) (["a", "b", "c"].map (fun k => CacheOp.set 0 k (5 : Nat)))).entries
        = (["a", "b", "c"].drop (["a", "b", "c"].length - 2)).map (fun k => (k, 5, 0)) :=
  ⟨(claim_C3_thm 2 10 (by decide)).1 [CacheOp.set 0 "a" 1, CacheOp.set 0 "b" 2, CacheOp.get 0 "a"] 3,
   ((claim_C3_thm 2 10 (by decide)).2 ["a", "b", "c"] 5 0 (by decide) (by decide)).1⟩

/-- Claim C4.  For an entry `(k, v, ts)` of a cache with distinct keys: a `get`
strictly after `ts + ttlSeconds` returns absent and removes the entry, and
any subsequent `get` of `k` is also absent with no further change; a `get`
at or before `ts + ttlSeconds` returns the stored value and moves the entry
to the most-recently-used (tail) position. -/
theorem claim_C4_thm {V : Type} (c : LRUCache V) (k : String) (v : V) (ts : Nat)
    (hnd : c.keys.Nodup) (hmem : (k, v, ts) ∈ c.entries) :
    (∀ now, ts + c.ttlSeconds < now →
      (c.get now k).1 = none
      ∧ k ∉ ((c.get now k).2).keys
      ∧ ∀ now2, ((c.get now k).2).get now2 k = (none, (c.get now k).2))
    ∧ (∀ now, now ≤ ts + c.ttlSeconds →
      (c.get now k).1 = some v
      ∧ ((c.get now k).2).entries
          = c.entries.filter (fun x => x.1 != k) ++ [(k, v, ts)]) := by
  constructor
  · intro now hlt
    have hstale := get_hit_stale c now k v ts hnd hmem hlt
    rw [hstale]
    refine ⟨rfl, not_mem_keys_filter c.entries k, ?_⟩
    intro now2
    exact get_miss _ now2 k (not_mem_keys_filter c.entries k)
  · intro now hle
    have hfresh := get_hit_fresh c now k v ts hnd hmem hle
    rw [hfresh]
    exact ⟨rfl, rfl⟩

/-- Claim C4, witness.  A concrete entry inserted at time 10 with TTL 7: the
gets at times 18 (stale) and 17 (still fresh). -/
theorem claim_C4_witness :
    ((({ entries := [("k", (5 : Nat), 10)], maxSize := 3, ttlSeconds := 7 } : LRUCache Nat).get
        18 "k").1 = none
      ∧ "k" ∉ ((({ entries := [("k", (5 : Nat), 10)], maxSize := 3, ttlSeconds := 7 } : LRUCache Nat).get
        18 "k").2).keys)
    ∧ (({ entries := [("k", (5 : Nat), 10)], maxSize := 3, ttlSeconds := 7 } : LRUCache Nat).get
        17 "k").1 = some 5 := by
  have h := claim_C4_thm
    ({ entries := [("k", (5 : Nat), 10)], maxSize := 3, ttlSeconds := 7 } : LRUCache Nat)
    "k" 5 10 (by decide) (by decide)
  have h18 := h.1 18 (by decide)
  have h17 := h.2 17 (by decide)
  exact ⟨⟨h18.1, h18.2.1⟩, h17.1⟩

/-- Claim C5.  Through `_call_with_retry` with budget `maxRetries`: an
operation failing on every attempt is invoked exactly `maxRetries + 1`
times, the sleeps between consecutive attempts (never after the last) are
`0.8, 2·0.8, 4·0.8, …`, and the final attempt's error is propagated
unchanged; an operation succeeding first at attempt `k ≤ maxRetries`
returns its result after `k + 1` invocations and `k` sleeps, with no
further attempts. -/
theorem claim_C5_thm {E A : Type} (maxRetries : Nat) :
    (∀ (e : Nat → E),
      call_with_retry (fun i => (Except.error (e i) : Except E A)) maxRetries =
        (Except.error (e maxRetries), maxRetries + 1,
          (List.range maxRetries).map (fun i => (0.8 : ℚ) * 2 ^ i)))
    ∧ (∀ (func : Nat → Except E A) (k : Nat) (a : A), k ≤ maxRetries →
      func k = Except.ok a →
      (∀ j, j < k → ∃ err, func j = Except.error err) →
      call_with_retry func maxRetries =
        (Except.ok a, k + 1, (List.range k).map (fun i => (0.8 : ℚ) * 2 ^ i))) := by
  constructor
  · intro e
    unfold call_with_retry
    rw [retryLoop_all_fail (fun i _ => (Except.error (e i), ())) (fun i _ => e i) id
      (fun i s => rfl) maxRetries 0 (0.8 : ℚ) ()]
    simp
  · intro func k a hk hok hfail
    unfold call_with_retry
    rw [retryLoop_unit_ok func a k maxRetries 0 (0.8 : ℚ) hk (by simpa using hok)
      (fun j hj => by simpa using hfail j hj)]

/-- Claim C5, witness.  Budget 2: an always-failing oracle is invoked 3 times
with sleeps `0.8, 1.6` and surfaces the error of attempt 2; an oracle that
succeeds on attempt 1 stops after 2 invocations and one sleep. -/
theorem claim_C5_witness :
    call_with_retry (fun i => (Except.error i : Except Nat Nat)) 2 =
      (Except.error 2, 3, (List.range 2).map (fun i => (0.8 : ℚ) * 2 ^ i))
    ∧ call_with_retry (fun i => if i = 1 then Except.ok 7 else (Except.error 0 : Except Nat Nat)) 2 =
      (Except.ok 7, 2, (List.range 1).map (fun i => (0.8 : ℚ) * 2 ^ i)) := by
  constructor
  · exact (claim_C5_thm 2).1 (fun i => i)
  · refine (claim_C5_thm 2).2 (fun i => if i = 1 then Except.ok 7 else Except.error 0) 1 7
      (by omega) (by simp) ?_
    intro j hj
    have hj0 : j = 0 := by omega
    subst hj0
    exact ⟨0, rfl⟩

-- The C6 trace: capacity 2, insert A, B, C, get A, insert D.

def c6Cache3 : LRUCache Nat :=
  (((LRUCache.empty 2 100).set 0 "A" 1).set 1 "B" 2).set 2 "C" 3

def c6AfterGet : LRUCache Nat := (c6Cache3.get 3 "A").2

def c6SetD : LRUCache Nat × List (String × Nat × Nat) := c6AfterGet.setPair 4 "D" 4

/-- Claim C6.  After `set A, set B, set C, get A, set D` on a capacity-2
cache: the final keys are exactly `C, D`; `B` is not present (it was the
least recently used entry when `D` was inserted, and `D`'s insertion
evicted exactly `B`); `A` is not among the keys evicted by the insertion of
`D`.  (`A` itself had already been evicted by the insertion of `C`, so the
`get A` was a miss.) -/
theorem claim_C6_thm :
    c6SetD.1.keys = ["C", "D"]
    ∧ "B" ∉ c6SetD.1.keys
    ∧ c6SetD.2.map Prod.fst = ["B"]
    ∧ "A" ∉ c6SetD.2.map Prod.fst := by
  refine ⟨by decide, by decide, by decide, by decide⟩

/-- Claim C7, counterexample.  A non-POST request gets status `405`, but its
body is `` \x7b"error": "method_not_allowed"\x7d `` alone: it carries
neither a `message` nor a `retryable` field, refuting "every such response
carries all three fields". -/
theorem claim_C7_counterexample :
    (handle envEmptyObj { method := "GET", path := some "/analyze", body := none }
        0 initialState).response.status = 405
    ∧ (handle envEmptyObj { method := "GET", path := some "/analyze", body := none }
        0 initialState).response.body = Json.obj [("error", Json.str "method_not_allowed")]
    ∧ jsonGet (handle envEmptyObj { method := "GET", path := some "/analyze", body := none }
        0 initialState).response.body "message" = none
    ∧ jsonGet (handle envEmptyObj { method := "GET", path := some "/analyze", body := none }
        0 initialState).response.body "retryable" = none :=
  ⟨rfl, rfl, rfl, rfl⟩

/-- Claim C7, amended.  Failure responses: a disallowed (non-POST) method gets
status `405` with the one-field body `` \x7b error: method_not_allowed \x7d ``
(no `message`, no `retryable`); every other failure response carries the
full three-field envelope `` \x7b error, message, retryable: true \x7d ``
with status 400 for a non-JSON body, 400 for validation errors, 404 for
unknown routes, and 502 for remote-collaborator failures after the retries
are exhausted. -/
theorem claim_C7_thm :
    (∀ (env : Env) (req : Request) (now : Nat) (st : ServerState), req.method ≠ "POST" →
      handle env req now st =
        { response := json_response (Json.obj [("error", Json.str "method_not_allowed")]) 405,
          state := st, invocations := 0, sleeps := [] })
    ∧ (∀ (env : Env) (req : Request) (now : Nat) (st : ServerState),
      req.method = "POST" → req.body = none →
      handle env req now st =
        { response := error_response "invalid_json" "Request body must be JSON" 400,
          state := st, invocations := 0, sleeps := [] })
    ∧ (∀ (env : Env) (p : Payload) (msg : String) (now : Nat) (st : ServerState),
      analyzeValidationError env p = some msg →
      handle env { method := "POST", path := some "/analyze", body := some p } now st =
        { response := error_response "bad_request" msg 400, state := st,
          invocations := 3, sleeps := [(0.8 : ℚ), (1.6 : ℚ)] })
    ∧ (∀ (env : Env) (req : Request) (now : Nat) (st : ServerState) (p : Payload),
      req.method = "POST" → req.body = some p →
      normPath req.path ≠ "/analyze" → normPath req.path ≠ "/chat" →
      handle env req now st =
        { response := error_response "not_found" "Unknown endpoint" 404,
          state := st, invocations := 0, sleeps := [] })
    ∧ (∀ (env : Env) (p : Payload) (now : Nat) (st : ServerState) (s : String)
      (imageBytes : Bytes) (mfn : Nat → String),
      p.image_base64 = some s → s ≠ "" →
      env.b64decode s = Except.ok imageBytes → sizeOk env imageBytes →
      env.sha256hex imageBytes ∉ st.cache.keys →
      (∀ i, env.remote i (analyzeContents p imageBytes) = Except.error (mfn i)) →
      handle env { method := "POST", path := some "/analyze", body := some p } now st =
        { response := error_response "gemini_failed" "Gemini request failed. Please retry." 502,
          state := { st with remoteCount := st.remoteCount + 3 },
          invocations := 3, sleeps := [(0.8 : ℚ), (1.6 : ℚ)] }) :=
  ⟨fun env req now st h => handle_not_post env req now st h,
   fun env req now st hm hb => handle_no_body env req now st hm hb,
   fun env p msg now st h => handle_analyze_validation env p msg now st h,
   fun env req now st p hm hb h1 h2 => handle_unknown_route env req now st p hm hb h1 h2,
   fun env p now st s imageBytes mfn himg hs hdec hsize hmiss hrem =>
     handle_analyze_remote_down env p now st s imageBytes mfn himg hs hdec hsize hmiss hrem⟩

/-- Claim C7, witness.  Each failure shape at a concrete input: `GET` (405,
one-field body), non-JSON body (400), undecodable image (400), unknown
route (404), and a permanently failing remote (502 after the full
budget). -/
def reqAnalyzeBad : Request :=
  { method := "POST", path := some "/analyze", body := some { image_base64 := some "bad" } }

theorem claim_C7_witness :
    handle envEmptyObj { method := "GET", path := some "/chat", body := none } 0 initialState =
      { response := json_response (Json.obj [("error", Json.str "method_not_allowed")]) 405,
        state := initialState, invocations := 0, sleeps := [] }
    ∧ handle envEmptyObj { method := "POST", path := some "/x", body := none } 0 initialState =
      { response := error_response "invalid_json" "Request body must be JSON" 400,
        state := initialState, invocations := 0, sleeps := [] }
    ∧ handle envEmptyObj reqAnalyzeBad 0 initialState =
      { response := error_response "bad_request" "Invalid base64-encoded string" 400,
        state := initialState, invocations := 3, sleeps := [(0.8 : ℚ), (1.6 : ℚ)] }
    ∧ handle envEmptyObj { method := "POST", path := some "/nope", body := some {} } 0 initialState =
      { response := error_response "not_found" "Unknown endpoint" 404,
        state := initialState, invocations := 0, sleeps := [] }
    ∧ handle envDown reqAnalyzeImg 0 initialState =
      { response := error_response "gemini_failed" "Gemini request failed. Please retry." 502,
        state := { initialState with remoteCount := initialState.remoteCount + 3 },
        invocations := 3, sleeps := [(0.8 : ℚ), (1.6 : ℚ)] } :=
  ⟨claim_C7_thm.1 envEmptyObj _ 0 initialState (by decide),
   claim_C7_thm.2.1 envEmptyObj _ 0 initialState rfl rfl,
   claim_C7_thm.2.2.1 envEmptyObj { image_base64 := some "bad" } "Invalid base64-encoded string"
     0 initialState rfl,
   claim_C7_thm.2.2.2.1 envEmptyObj _ 0 initialState {} rfl rfl (by decide) (by decide),
   claim_C7_thm.2.2.2.2 envDown { image_base64 := some "img" } 0 initialState "img"
     [105, 109, 103] (fun _ => "Service unavailable") rfl (by decide) rfl trivial
     (by decide) (fun i => rfl)⟩

/-- Claim C8.  If the attached image of message `j` fails to decode, `_chat`
behaves exactly as if that message had no image at all — same result, same
final state (the remaining messages and the request keep being processed;
nothing is raised on account of the image) — and the index `j` is recorded
among the emitted decode diagnostics. -/
theorem claim_C8_thm (env : Env) (p : Payload) (st : ServerState) (msgs : List ChatMsg)
    (j : Nat) (m : ChatMsg) (s : String)
    (hmsgs : p.messages = some (MessagesField.list msgs))
    (hget : msgs.get? j = some m) (him : m.image_base64 = some s) (hs : s ≠ "")
    (hfail : ∃ err, env.b64decode s = Except.error err) :
    (chat env p st).1 =
      (chat env { p with messages := some (MessagesField.list
        (msgs.set j { m with image_base64 := none })) } st).1
    ∧ (chat env p st).2.1 =
      (chat env { p with messages := some (MessagesField.list
        (msgs.set j { m with image_base64 := none })) } st).2.1
    ∧ j ∈ (chat env p st).2.2 := by
  have hturns := chatTurns_drop_failed env s hs hfail msgs j 0 m hget him
  have hemp : (msgs.set j { m with image_base64 := none }).isEmpty = msgs.isEmpty := by
    cases msgs with
    | nil => cases hget
    | cons a b => cases j <;> rfl
  have hctx : chatContext { p with messages := some (MessagesField.list
      (msgs.set j { m with image_base64 := none })) } = chatContext p := rfl
  have hcont : chatContents env (msgs.set j { m with image_base64 := none }) (chatContext p)
      = chatContents env msgs (chatContext p) := by
    unfold chatContents
    rw [hemp, hturns.1]
  unfold chat
  rw [hmsgs]
  dsimp only
  rw [hctx, hcont]
  cases hr : env.remote st.remoteCount (chatContents env msgs (chatContext p)) with
  | error msg2 => exact ⟨rfl, rfl, by simpa using hturns.2⟩
  | ok resp => exact ⟨rfl, rfl, by simpa using hturns.2⟩

/-- Claim C8, witness.  A single-message history whose image is the
undecodable `"bad"`: `_chat` equals the image-free run and records the
diagnostic for message 0. -/
theorem claim_C8_witness :
    (chat envEmptyObj
        { messages := some (MessagesField.list
            [{ role := none, content := some "hi", image_base64 := some "bad" }]) }
        initialState).1 =
      (chat envEmptyObj
        { messages := some (MessagesField.list
            [{ role := none, content := some "hi", image_base64 := none }]) }
        initialState).1
    ∧ 0 ∈ (chat envEmptyObj
        { messages := some (MessagesField.list
            [{ role := none, content := some "hi", image_base64 := some "bad" }]) }
        initialState).2.2 := by
  have h := claim_C8_thm envEmptyObj
    { messages := some (MessagesField.list
        [{ role := none, content := some "hi", image_base64 := some "bad" }]) }
    initialState
    [{ role := none, content := some "hi", image_base64 := some "bad" }]
    0 { role := none, content := some "hi", image_base64 := some "bad" } "bad"
    rfl rfl rfl (by decide) ⟨"Invalid base64-encoded string", rfl⟩
  exact ⟨h.1, h.2.2⟩

/-- Claim C9.  `_chat` neither reads from nor writes to the analysis cache:
its result and its diagnostics are identical for any two cache contents,
the cache after the call is exactly the cache before it, and the same holds
through the retry wrapper for a full `POST /chat` request. -/
theorem claim_C9_thm (env : Env) (p : Payload) (c1 c2 : LRUCache Json) (n now : Nat)
    (st : ServerState) :
    (chat env p { cache := c1, remoteCount := n }).1 =
      (chat env p { cache := c2, remoteCount := n }).1
    ∧ (chat env p { cache := c1, remoteCount := n }).2.1.cache = c1
    ∧ (chat env p { cache := c1, remoteCount := n }).2.2 =
      (chat env p { cache := c2, remoteCount := n }).2.2
    ∧ (handle env { method := "POST", path := some "/chat", body := some p } now st).state.cache
        = st.cache := by
  refine ⟨(chat_cache_independent env p c1 c2 n).1, chat_cache_eq env p _,
    (chat_cache_independent env p c1 c2 n).2, ?_⟩
  rw [handle_chat_unfold]
  exact retryLoop_proj_inv (fun _ s => chatStep env p s) ServerState.cache
    (fun i s => chatStep_cache_eq env p s) MAX_RETRIES 0 (0.8 : ℚ) st

/-- Claim C10.  A remote response exposing neither a truthy `text` attribute
nor the candidates path extracts to the empty string; `_extract_json` of
the empty string raises `ValueError "No JSON object found in response"`;
and a request hitting this path surfaces as a `400 bad_request` client
fault (after the blind retry budget), never as a `502` remote failure. -/
theorem claim_C10_thm :
    (∀ r : RemoteResponse, optStrTruthy r.text = false → r.candidatesText = none →
      extract_text r = "")
    ∧ (∀ loads : String → Except String Json,
      extract_json loads "" = Except.error (PyErr.valueError "No JSON object found in response"))
    ∧ (∀ (env : Env) (p : Payload) (now : Nat) (st : ServerState) (s : String)
      (imageBytes : Bytes) (resp : RemoteResponse),
      p.image_base64 = some s → s ≠ "" →
      env.b64decode s = Except.ok imageBytes → sizeOk env imageBytes →
      env.sha256hex imageBytes ∉ st.cache.keys →
      (∀ i, env.remote i (analyzeContents p imageBytes) = Except.ok resp) →
      optStrTruthy resp.text = false → resp.candidatesText = none →
      handle env { method := "POST", path := some "/analyze", body := some p } now st =
        { response := error_response "bad_request" "No JSON object found in response" 400,
          state := { st with remoteCount := st.remoteCount + 3 },
          invocations := 3, sleeps := [(0.8 : ℚ), (1.6 : ℚ)] }) :=
  ⟨fun r h1 h2 => extract_text_empty r h1 h2,
   fun loads => extract_json_empty loads,
   fun env p now st s imageBytes resp himg hs hdec hsize hmiss hrem htext hcand =>
     handle_analyze_no_json env p now st s imageBytes resp himg hs hdec hsize hmiss hrem htext hcand⟩

/-- Claim C10, witness.  Against `envNoText` (responses with no `text` and no
candidates path), the demo analyze request yields exactly the 400
`bad_request` envelope with the `No JSON object found in response` message,
after 3 attempts and 2 sleeps. -/
theorem claim_C10_witness :
    extract_text { text := none, candidatesText := none } = ""
    ∧ extract_json envNoText.jsonLoads "" =
        Except.error (PyErr.valueError "No JSON object found in response")
    ∧ handle envNoText reqAnalyzeImg 0 initialState =
      { response := error_response "bad_request" "No JSON object found in response" 400,
        state := { initialState with remoteCount := initialState.remoteCount + 3 },
        invocations := 3, sleeps := [(0.8 : ℚ), (1.6 : ℚ)] } :=
  ⟨claim_C10_thm.1 { text := none, candidatesText := none } rfl rfl,
   claim_C10_thm.2.1 envNoText.jsonLoads,
   claim_C10_thm.2.2 envNoText { image_base64 := some "img" } 0 initialState "img"
     [105, 109, 103] { text := none, candidatesText := none } rfl (by decide) rfl trivial
     (by decide) (fun i => rfl) rfl rfl⟩
